import Mathlib

/-!
Verification of the KPI computation core of the ProjetoTCC repository
(`backend/indicadores/gestao.py`, `backend/indicadores/paciente.py`,
`backend/utils/time.py`).

Shallow embedding conventions:
* A timestamp is a rational number of seconds since an arbitrary epoch,
  in UTC.  Python `datetime` values reaching the core are modelled by
  `PyDT`: `aware t` is an offset-aware datetime denoting UTC instant `t`;
  `naive t` is a datetime without `tzinfo` whose wall-clock reading is
  `t`; `none` models Python `None` / an absent field; `invalid` models a
  value `datetime.fromisoformat` cannot parse (a garbled string, a
  non-string non-datetime object).
* Python floats are modelled by `ℚ`; `round(x, n)` is modelled by
  rounding `x * 10^n` to the nearest integer (Python rounds the nearest
  representable binary float, ties-to-even; the models agree away from
  exact decimal ties, which binary floats cannot represent at these
  scales).
* The system-local timezone that `datetime.astimezone` assumes for naive
  values is passed explicitly as an offset `tz` (seconds east of UTC);
  the current clock `datetime.now(timezone.utc)` is passed explicitly as
  `now`.
-/

/-- Model of a Python datetime-or-None value as received by
`_coerce_dt` (gestao.py lines 36-46). -/
inductive PyDT where
  | none : PyDT
  | aware (t : ℚ) : PyDT
  | naive (t : ℚ) : PyDT
  | invalid : PyDT
deriving DecidableEq, Repr

/-- Python truthiness of a `PyDT` value: `None` is falsy, every datetime
is truthy; an unparsable raw value (a non-empty string, say) is truthy.
(An empty string would be falsy, but it also coerces to `Option.none`,
so the two readings of `invalid` lead to the same `_overlap_seconds`
result; we pick truthy.) -/
def PyDT.truthy : PyDT → Bool
  | .none => false
  | _ => true

/-- Embedding of `_coerce_dt` (gestao.py lines 36-46).  `None` maps to
`None`; an offset-aware datetime is converted to UTC (here already a UTC
instant); a naive datetime `v` is run through `v.astimezone(timezone.utc)`,
which presumes the system-local timezone of offset `tz` seconds, yielding
UTC instant `t - tz`; an unparsable value raises inside the `try` and
maps to `None`. -/
def coerce_dt (tz : ℚ) : PyDT → Option ℚ
  | .none => Option.none
  | .aware t => some t
  | .naive t => some (t - tz)
  | .invalid => Option.none

/-- Embedding of `_overlap_seconds` (gestao.py lines 48-66): seconds of
overlap between `[a_start, a_end]` (`a_end` falsy = open, capped at the
clock `now`) and `[b_start, b_end)`; `0.0` when a required endpoint does
not coerce or when the intersection is empty. -/
def overlap_seconds (tz now : ℚ) (a_start a_end b_start b_end : PyDT) : ℚ :=
  let a0 := coerce_dt tz a_start
  let a1 := if a_end.truthy then coerce_dt tz a_end else Option.none
  let b0 := coerce_dt tz b_start
  let b1 := coerce_dt tz b_end
  match a0, b0, b1 with
  | some a0, some b0, some b1 =>
    let a1v := a1.getD now
    let secs := min a1v b1 - max a0 b0
    if 0 < secs then secs else 0
  | _, _, _ => 0

/-- Model of Python `round(x, n)` on our rational model of floats:
round `x * 10^n` to the nearest integer and scale back. -/
def roundQ (n : ℕ) (x : ℚ) : ℚ := (round (x * 10 ^ n) : ℤ) / 10 ^ n

/-- Python `sorted` on numeric samples (ascending). -/
def sortQ (l : List ℚ) : List ℚ := l.insertionSort (· ≤ ·)

/-- Embedding of `p90` (utils/time.py lines 10-19): 90th percentile with
linear interpolation.  `k = 0.9 * (n - 1)`, `f = floor k`, `c = ceil k`;
when `f = c` the sample at index `k` is returned, otherwise the two
neighbouring samples are interpolated.  Indexing uses `getD _ 0`; the
indices are in range for every non-empty sample. -/
def p90 (valores : List ℚ) : ℚ :=
  if valores = [] then 0
  else
    let s := sortQ valores
    let k : ℚ := 9 / 10 * (valores.length - 1 : ℕ)
    let f : ℤ := ⌊k⌋
    let c : ℤ := ⌈k⌉
    if f = c then s.getD f.toNat 0
    else s.getD f.toNat 0 + (k - f) * (s.getD c.toNat 0 - s.getD f.toNat 0)

/-- Embedding of Python `statistics.median` as used on non-empty samples
(`_stats` guards emptiness; the model returns 0 on `[]` where Python
would raise). -/
def pymedian (l : List ℚ) : ℚ :=
  let s := sortQ l
  let n := l.length
  if n % 2 = 1 then s.getD (n / 2) 0
  else (s.getD (n / 2 - 1) 0 + s.getD (n / 2) 0) / 2

/-- Embedding of `_stats` (gestao.py lines 11-18): `(mean, median, p90)`
each rounded to 2 decimals, `(0, 0, 0)` for the empty sample. -/
def _stats (arr : List ℚ) : ℚ × ℚ × ℚ :=
  if arr = [] then (0, 0, 0)
  else (roundQ 2 (arr.sum / (arr.length : ℚ)), roundQ 2 (pymedian arr), roundQ 2 (p90 arr))

/-- Embedding of `_ratio` (gestao.py lines 20-21): zero-safe ratio
rounded to `ndigits` decimals. -/
def _ratio (num den : ℚ) (ndigits : ℕ) : ℚ :=
  roundQ ndigits (if den ≠ 0 then num / den else 0)

/-- Python `str.lower()` (executable model: lower-case each character). -/
def pyLower (s : String) : String := ⟨s.data.map Char.toLower⟩

/-- A character Python `str.strip()` removes: ASCII whitespace. -/
def pySpace (c : Char) : Bool :=
  c = ' ' ∨ c = '\t' ∨ c = '\n' ∨ c = '\r' ∨ c = '\x0b' ∨ c = '\x0c'

/-- Python `str.strip()`: drop leading and trailing whitespace. -/
def pyStrip (s : String) : String :=
  ⟨((s.data.dropWhile pySpace).reverse.dropWhile pySpace).reverse⟩

/-- Embedding of `_normaliza_destino` (gestao.py lines 23-34), as a
function of the two record fields it reads (`destino_alta`, `desfecho`;
`Option.none` models an absent/None field, `some ""` an empty string —
Python's `or` treats both alike). -/
def _normaliza_destino (destino_alta desfecho : Option String) : String :=
  let dest := pyStrip (pyLower (destino_alta.getD ""))
  if dest ≠ "" then dest
  else
    let raw := desfecho.getD ""
    let d := pyStrip (pyLower (if raw = "" then "alta" else raw))
    if d = "alta" then "enfermaria"
    else if d = "obito" then "obito"
    else if d = "transferencia" then "outro_hospital"
    else if d ≠ "" then d else "enfermaria"

/-- Embedding of `diferenca_dias` (utils/time.py lines 25-26). -/
def diferenca_dias (a b : ℚ) : ℚ := (b - a) / 86400

/-- Embedding of `diferenca_horas` (utils/time.py lines 32-33). -/
def diferenca_horas (a b : ℚ) : ℚ := (b - a) / 3600

/-- A stored BSON datetime field that may be null/absent, as handed to
`_overlap_seconds`: `some t` is an (aware, UTC) instant, `none` is
null/absent. -/
def optDT : Option ℚ → PyDT
  | some t => .aware t
  | Option.none => .none

/-!
## Data model of the fetched records

One record type per MongoDB collection read by `build_kpi_cti_gestao`,
restricted to the fields the function projects.  Stored BSON datetimes
are modelled as UTC instants (`ℚ`), `Option` marking nullable fields;
the storage layer's codec configuration is outside this core.  A missing
string field is modelled by `Option.none` / the empty string where the
code only tests truthiness.
-/

/-- One document of `cti.estadas_setor` (a `SectorStay`). -/
structure Estada where
  id_internacao : String
  id_setor : String
  inicio : ℚ
  fim : Option ℚ
deriving DecidableEq, Repr

/-- One document of `cti.internacoes` (an `Admission`). -/
structure Internacao where
  id_internacao : String
  id_paciente : String
  admissao_ts : Option ℚ
  alta_ts : Option ℚ
  desfecho : Option String
  destino_alta : Option String
deriving DecidableEq, Repr

/-- One ventilation sub-period (`periodos` entry). -/
structure VentPeriodo where
  inicio : Option ℚ
  fim : Option ℚ
deriving DecidableEq, Repr

/-- One document of `cti.ventilacao` (a `VentilationRecord`). -/
structure Ventilacao where
  id_internacao : String
  intubacoes_ts : List ℚ
  extubacoes_ts : List ℚ
  periodos : List VentPeriodo
deriving DecidableEq, Repr

/-- One document of `cti.paciente_dia_setor` (a `DeviceDayRecord`). -/
structure PacienteDia where
  id_setor : String
  data : ℚ
  id_internacao : String
  ventilado : Bool
  cvc : Bool
  foley : Bool
  art_line : Bool
deriving DecidableEq, Repr

/-- One document of `cti.antibioticos_uso`; `oid` is `str(_id)`. -/
structure AbUso where
  oid : String
  id_internacao : String
  antibiotico : Option String
deriving DecidableEq, Repr

/-- One document of `cti.antibiotico_periodos`. -/
structure AbPeriodo where
  id_ab_uso : String
  inicio : Option ℚ
  fim : Option ℚ
deriving DecidableEq, Repr

/-- The read snapshot of all collections consumed by one invocation of
`build_kpi_cti_gestao`. -/
structure Snapshot where
  internacoes : List Internacao
  estadas : List Estada
  ventilacoes : List Ventilacao
  pacienteDias : List PacienteDia
  abUsos : List AbUso
  abPeriodos : List AbPeriodo
deriving DecidableEq, Repr

/-- Python `m[k] = f(m.get(k, dflt))` on an insertion-ordered dict
modelled as an association list: an existing key keeps its position, a
new key is appended. -/
def dictUpd {α : Type} (m : List (String × α)) (k : String) (dflt : α) (f : α → α) :
    List (String × α) :=
  if (m.lookup k).isSome then m.map (fun p => if p.1 = k then (p.1, f p.2) else p)
  else m ++ [(k, f dflt)]

/-- Python `s.add(x)` on a set modelled as a duplicate-free list. -/
def setAdd (s : List String) (x : String) : List String :=
  if x ∈ s then s else s ++ [x]

/-!
## Presence cohort (gestao.py lines 112-142)
-/

/-- The Mongo filter of gestao.py lines 116-124: stays of the sector
whose start precedes the window end and whose end is `≥` the window
start or null/absent. -/
def estadaMatch (setor : String) (ini fimEx : ℚ) (e : Estada) : Bool :=
  e.id_setor == setor && decide (e.inicio < fimEx) &&
    (match e.fim with
     | some f => decide (ini ≤ f)
     | Option.none => true)

/-- The fetched `estadas` list (gestao.py lines 116-124). -/
def estadasSetor (setor : String) (ini fimEx : ℚ) (snap : Snapshot) : List Estada :=
  snap.estadas.filter (estadaMatch setor ini fimEx)

/-- `coorte_ids` (gestao.py line 127).  The Python value is a set; only
membership and non-emptiness are consumed, so the model keeps the
(possibly duplicated) list of non-empty ids. -/
def coorteIds (setor : String) (ini fimEx : ℚ) (snap : Snapshot) : List String :=
  ((estadasSetor setor ini fimEx snap).map (·.id_internacao)).filter (· ≠ "")

/-- The `_overlap_seconds` call of gestao.py line 135 for one stay. -/
def overlapEstada (tz now ini fimEx : ℚ) (e : Estada) : ℚ :=
  overlap_seconds tz now (.aware e.inicio) (optDT e.fim) (.aware ini) (.aware fimEx)

/-- One iteration of the `for e in estadas` loop (gestao.py lines
131-137). -/
def secsStep (tz now ini fimEx : ℚ) (m : List (String × ℚ)) (e : Estada) :
    List (String × ℚ) :=
  if e.id_internacao = "" then m
  else
    let sec := overlapEstada tz now ini fimEx e
    if 0 < sec then dictUpd m e.id_internacao 0 (· + sec) else m

/-- `secs_no_setor` (gestao.py lines 130-137): per-admission seconds in
the sector inside the window, accumulated over the fetched stays;
entries are created only by a stay of strictly positive overlap. -/
def secsNoSetor (tz now : ℚ) (setor : String) (ini fimEx : ℚ) (snap : Snapshot) :
    List (String × ℚ) :=
  (estadasSetor setor ini fimEx snap).foldl (secsStep tz now ini fimEx) []

/-- `los_periodo_d` (gestao.py line 140). -/
def losPeriodoD (tz now : ℚ) (setor : String) (ini fimEx : ℚ) (snap : Snapshot) : List ℚ :=
  (secsNoSetor tz now setor ini fimEx snap).map (fun p => p.2 / 86400)

/-- `pacientes_no_periodo` (gestao.py line 142). -/
def pacientesNoPeriodo (tz now : ℚ) (setor : String) (ini fimEx : ℚ) (snap : Snapshot) : ℕ :=
  (secsNoSetor tz now setor ini fimEx snap).length

/-!
## Discharges in the window (gestao.py lines 144-186)
-/

/-- The `$lookup`/`$match` pair of gestao.py lines 149-160 (and again
202): the admission has at least one stay in the sector, ever. -/
def passouSetor (setor : String) (snap : Snapshot) (iid : String) : Bool :=
  snap.estadas.any (fun e => e.id_internacao == iid && e.id_setor == setor)

/-- `"alta_ts": {"$gte": ini, "$lt": fim}` — a null/absent discharge
instant never matches a datetime range. -/
def altaInWindow (ini fimEx : ℚ) (it : Internacao) : Bool :=
  match it.alta_ts with
  | some a => decide (ini ≤ a) && decide (a < fimEx)
  | Option.none => false

/-- `saidas` (gestao.py lines 147-170): admissions discharged inside the
window that passed through the sector. -/
def saidas (setor : String) (ini fimEx : ℚ) (snap : Snapshot) : List Internacao :=
  snap.internacoes.filter
    (fun it => altaInWindow ini fimEx it && passouSetor setor snap it.id_internacao)

/-- `los_alta_list` (gestao.py lines 179-182). -/
def losAltaList (setor : String) (ini fimEx : ℚ) (snap : Snapshot) : List ℚ :=
  (saidas setor ini fimEx snap).filterMap
    (fun s => match s.admissao_ts, s.alta_ts with
      | some a, some b => some (diferenca_dias a b)
      | _, _ => Option.none)

/-- `obitos` (gestao.py line 185). -/
def obitos (setor : String) (ini fimEx : ℚ) (snap : Snapshot) : ℕ :=
  (saidas setor ini fimEx snap).countP (fun s => pyLower (s.desfecho.getD "") == "obito")

/-!
## 48h readmission (gestao.py lines 188-255)
-/

/-- The discharges feeding the readmission pipeline (gestao.py lines
190-202): discharged alive (`desfecho == "alta"`) inside the window,
with some stay in the sector. -/
def altasVivas (setor : String) (ini fimEx : ℚ) (snap : Snapshot) : List Internacao :=
  snap.internacoes.filter
    (fun it => altaInWindow ini fimEx it && it.desfecho == some "alta" &&
      passouSetor setor snap it.id_internacao)

/-- The `$match` stage of the `prox_int` lookup (gestao.py lines
206-210): the same patient's admissions strictly after the discharge. -/
def proxCands (snap : Snapshot) (idpac : String) (alta : ℚ) : List Internacao :=
  snap.internacoes.filter
    (fun j => j.id_paciente == idpac &&
      (match j.admissao_ts with
       | some a => decide (alta < a)
       | Option.none => false))

/-- The choice of the two candidates the `$sort`/`$limit 1` pair keeps:
the earlier admission, the incumbent on a tie. -/
def proxMin (acc : Option Internacao) (j : Internacao) : Option Internacao :=
  match acc with
  | Option.none => some j
  | some b => if j.admissao_ts.getD 0 < b.admissao_ts.getD 0 then some j else some b

/-- `prox_int` (gestao.py lines 203-215): the same patient's admission
with the smallest admission instant strictly after the discharge
(`$sort admissao_ts` + `$limit 1`; on ties the first in collection order
is kept). -/
def proxInt (snap : Snapshot) (idpac : String) (alta : ℚ) : Option Internacao :=
  (proxCands snap idpac alta).foldl proxMin Option.none

/-- The `horas` field of gestao.py lines 228-239: hours from the
discharge to the patient's chronologically next admission, defined only
when that next admission exists and itself has a stay in the sector. -/
def readmHoras (setor : String) (snap : Snapshot) (s : Internacao) : Option ℚ :=
  match s.alta_ts with
  | Option.none => Option.none
  | some alta =>
    match proxInt snap s.id_paciente alta with
    | Option.none => Option.none
    | some nx =>
      if passouSetor setor snap nx.id_internacao then
        some (diferenca_horas alta (nx.admissao_ts.getD 0))
      else Option.none

/-- The `$cond` of gestao.py lines 243-246: `horas` non-null and `≤ 48`. -/
def readmMatch (setor : String) (snap : Snapshot) (s : Internacao) : Bool :=
  match readmHoras setor snap s with
  | some h => decide (h ≤ 48)
  | Option.none => false

/-- `readmissoes` (gestao.py lines 240-254): discharges whose `horas` is
non-null and `≤ 48`. -/
def readmissoes (setor : String) (ini fimEx : ℚ) (snap : Snapshot) : ℕ :=
  (altasVivas setor ini fimEx snap).countP (readmMatch setor snap)

/-- `altas_utilizadas` (gestao.py line 242; 0 when the pipeline returns
no group row, i.e. when the list is empty). -/
def altasUtilizadas (setor : String) (ini fimEx : ℚ) (snap : Snapshot) : ℕ :=
  (altasVivas setor ini fimEx snap).length

/-!
## Discharge destination (gestao.py lines 257-266)
-/

/-- `destino_counts` (gestao.py lines 258-261). -/
def destinoCounts (setor : String) (ini fimEx : ℚ) (snap : Snapshot) : List (String × ℕ) :=
  (saidas setor ini fimEx snap).foldl
    (fun m s => dictUpd m (_normaliza_destino s.destino_alta s.desfecho) 0 (· + 1)) []

/-- `total_dest = sum(...) or 1` (gestao.py line 262). -/
def totalDest (setor : String) (ini fimEx : ℚ) (snap : Snapshot) : ℕ :=
  let t := (destinoCounts setor ini fimEx snap).foldl (fun a p => a + p.2) 0
  if t = 0 then 1 else t

/-- One entry of the `destino_alta` output list. -/
structure DestinoItem where
  destino : String
  quantidade : ℕ
  percentual : ℚ
deriving DecidableEq, Repr

/-- `destino_alta` (gestao.py lines 263-266). -/
def destinoAlta (setor : String) (ini fimEx : ℚ) (snap : Snapshot) : List DestinoItem :=
  let tot := totalDest setor ini fimEx snap
  (destinoCounts setor ini fimEx snap).map
    (fun p => ⟨p.1, p.2, _ratio (p.2 : ℚ) (tot : ℚ) 4⟩)

/-!
## Ventilation (gestao.py lines 268-320)
-/

/-- `intu` (gestao.py line 290): the record's intubation instants,
coerced and sorted (in the UTC-instant model coercion is the identity
and always succeeds). -/
def ventIntu (v : Ventilacao) : List ℚ := sortQ v.intubacoes_ts

/-- `ext` (gestao.py line 291). -/
def ventExt (v : Ventilacao) : List ℚ := sortQ v.extubacoes_ts

/-- The `it_map` lookup (gestao.py lines 284-287, 296): a dict keyed by
`id_internacao` built from the admissions of the cohort — on a duplicate
id the last document wins. -/
def itMapLookup (coorte : List String) (snap : Snapshot) (iid : String) : Option Internacao :=
  ((snap.internacoes.filter (fun x => coorte.contains x.id_internacao)).filter
    (fun x => x.id_internacao == iid)).getLast?

/-- `total_secs` of one record (gestao.py lines 302-306): summed overlap
of the ventilation sub-periods with the window, an open period being
closed at `now` before the call. -/
def ventTotalSecs (tz now ini fimEx : ℚ) (v : Ventilacao) : ℚ :=
  v.periodos.foldl
    (fun acc p =>
      acc + overlap_seconds tz now (optDT p.inicio) (.aware (p.fim.getD now))
        (.aware ini) (.aware fimEx))
    0

/-- One trigger of the reintubation scan (gestao.py lines 314-316): the
first later intubation in the ascending list `intu` exists and lies
within 48 hours of the extubation `e`. -/
def reintMatch (intu : List ℚ) (e : ℚ) : Bool :=
  match intu.find? (fun i => decide (e < i)) with
  | some p => decide (diferenca_horas e p ≤ 48)
  | Option.none => false

/-- The reintubation count of one record (gestao.py lines 313-316). -/
def reintOf (intu ext : List ℚ) : ℕ :=
  ext.countP (reintMatch intu)

/-- The accumulators of the ventilation loop (gestao.py lines 271-276). -/
structure VentAcc where
  vent_tot_d : List ℚ
  qtd_ventilados : ℕ
  qtd_intubados : ℕ
  reint : ℕ
  total_ext : ℕ
  tt_int_h : List ℚ
deriving DecidableEq, Repr

/-- One iteration of the `for v in vents` loop (gestao.py lines 289-316). -/
def ventStep (tz now ini fimEx : ℚ) (coorte : List String) (snap : Snapshot)
    (acc : VentAcc) (v : Ventilacao) : VentAcc :=
  let intu := ventIntu v
  let ext := ventExt v
  let acc1 :=
    if intu ≠ [] then
      match (itMapLookup coorte snap v.id_internacao).bind (·.admissao_ts) with
      | some adm =>
        { acc with qtd_intubados := acc.qtd_intubados + 1,
                   tt_int_h := acc.tt_int_h ++ [diferenca_horas adm (intu.headD 0)] }
      | Option.none => acc
    else acc
  let ts := ventTotalSecs tz now ini fimEx v
  let acc2 :=
    if 0 < ts then
      { acc1 with qtd_ventilados := acc1.qtd_ventilados + 1,
                  vent_tot_d := acc1.vent_tot_d ++ [ts / 86400] }
    else acc1
  { acc2 with total_ext := acc2.total_ext + ext.length,
              reint := acc2.reint + reintOf intu ext }

/-- The ventilation section (gestao.py lines 271-316): all accumulators
stay zero when the cohort is empty, else the loop runs over the cohort's
ventilation records in collection order. -/
def ventAcc (tz now : ℚ) (setor : String) (ini fimEx : ℚ) (snap : Snapshot) : VentAcc :=
  let coorte := coorteIds setor ini fimEx snap
  if coorte = [] then ⟨[], 0, 0, 0, 0, []⟩
  else
    (snap.ventilacoes.filter (fun v => coorte.contains v.id_internacao)).foldl
      (ventStep tz now ini fimEx coorte snap) ⟨[], 0, 0, 0, 0, []⟩

/-!
## Patient-day and device prevalence (gestao.py lines 322-375)
-/

/-- The `$match` of gestao.py line 326. -/
def pdRows (setor : String) (ini fimEx : ℚ) (snap : Snapshot) : List PacienteDia :=
  snap.pacienteDias.filter
    (fun d => d.id_setor == setor && decide (ini ≤ d.data) && decide (d.data < fimEx))

/-- `all_ids` (`$addToSet` on `id_internacao`); only its cardinality is
consumed, so any duplicate-removal order works. -/
def pdAllIds (setor : String) (ini fimEx : ℚ) (snap : Snapshot) : List String :=
  ((pdRows setor ini fimEx snap).map (·.id_internacao)).dedup

/-- The `*_ids` sets (`$addToSet` of a `$cond`, `None` removed by
`$setDifference`): distinct admission ids among rows with the flag. -/
def pdIdsWhere (f : PacienteDia → Bool) (setor : String) (ini fimEx : ℚ)
    (snap : Snapshot) : List String :=
  (((pdRows setor ini fimEx snap).filter f).map (·.id_internacao)).dedup

/-!
## Antibiotics (gestao.py lines 377-425)
-/

/-- `ab_usos` (gestao.py lines 384-387). -/
def abUsosCoorte (coorte : List String) (snap : Snapshot) : List AbUso :=
  snap.abUsos.filter (fun x => coorte.contains x.id_internacao)

/-- `by_ab_id.get(ab_id)` (gestao.py lines 389, 403): dict keyed by
`str(_id)`, last document winning on a duplicate key. -/
def abLookup (usos : List AbUso) (oid : String) : Option AbUso :=
  (usos.filter (fun x => x.oid == oid)).getLast?

/-- The two dicts accumulated by the `for p in per_cur` loop
(gestao.py lines 398-418). -/
structure AbAcc where
  dot : List (String × ℚ)
  exp : List (String × List String)
deriving DecidableEq, Repr

/-- One iteration of the antibiotic-period loop (gestao.py lines
401-418). -/
def abStep (tz now ini fimEx : ℚ) (usos : List AbUso) (acc : AbAcc) (p : AbPeriodo) : AbAcc :=
  match abLookup usos p.id_ab_uso with
  | Option.none => acc
  | some base =>
    let abName := if base.antibiotico.getD "" = "" then "desconhecido"
                  else base.antibiotico.getD ""
    let iid := base.id_internacao
    let secs := overlap_seconds tz now (optDT p.inicio) (optDT p.fim)
      (.aware ini) (.aware fimEx)
    if secs ≤ 0 then acc
    else
      let dias := secs / 86400
      let dot := dictUpd acc.dot abName 0 (· + dias)
      let exp0 := if (acc.exp.lookup abName).isSome then acc.exp else acc.exp ++ [(abName, [])]
      let exp := if iid ≠ "" then
          exp0.map (fun q => if q.1 = abName then (q.1, setAdd q.2 iid) else q)
        else exp0
      ⟨dot, exp⟩

/-- One entry of the antibiotic ranking. -/
structure AbItem where
  antibiotico : String
  dot_total_d : ℚ
  pacientes_expostos : ℕ
deriving DecidableEq, Repr

/-- Stable descending insertion (by `dot_total_d`) for the ranking sort
(gestao.py line 423, `sort(key=..., reverse=True)` — Python's sort is
stable). -/
def insAbDesc (x : AbItem) : List AbItem → List AbItem
  | [] => [x]
  | y :: ys => if y.dot_total_d < x.dot_total_d then x :: y :: ys else y :: insAbDesc x ys

/-- Stable descending sort by `dot_total_d`. -/
def sortAbDesc (l : List AbItem) : List AbItem := l.foldl (fun acc x => insAbDesc x acc) []

/-- `ranking` (gestao.py lines 380-424). -/
def abRanking (tz now : ℚ) (setor : String) (ini fimEx : ℚ) (snap : Snapshot) : List AbItem :=
  let coorte := coorteIds setor ini fimEx snap
  if coorte = [] then []
  else
    let usos := abUsosCoorte coorte snap
    if usos = [] then []
    else
      let oids := usos.map (·.oid)
      let pers := snap.abPeriodos.filter (fun p => oids.contains p.id_ab_uso)
      let acc := pers.foldl (abStep tz now ini fimEx usos) ⟨[], []⟩
      sortAbDesc (acc.dot.map
        (fun kv => ⟨kv.1, roundQ 2 kv.2, ((acc.exp.lookup kv.1).getD []).length⟩))

/-!
## The assembled unit-level document (gestao.py lines 427-526)
-/

/-- A `(media, mediana, p90)` statistics block of the output. -/
structure StatBlock where
  media : ℚ
  mediana : ℚ
  p90v : ℚ
deriving DecidableEq, Repr

/-- `_stats` repackaged as a `StatBlock`. -/
def statBlock (arr : List ℚ) : StatBlock :=
  let s := _stats arr
  ⟨s.1, s.2.1, s.2.2⟩

/-- The unit-level KPI document, flattened: each field corresponds to
one leaf of the JSON document returned at gestao.py lines 430-526
(`periodo` keeps the window instants rather than their ISO rendering;
counts that the JSON repeats in several places appear once). -/
structure KpiDoc where
  periodo_inicio : ℚ
  periodo_fim : ℚ
  id_setor : String
  pacientes_no_periodo : ℕ
  los_periodo_setor : StatBlock
  los_por_alta : StatBlock
  quantidade_saidas : ℕ
  obitos : ℕ
  mortalidade_taxa : ℚ
  readmissoes : ℕ
  altas_utilizadas : ℕ
  readmissao_taxa : ℚ
  reintubacoes : ℕ
  extubacoes : ℕ
  reintubacao_taxa : ℚ
  destino_alta : List DestinoItem
  ranking : List AbItem
  dot_por_antibiotico : List (String × ℚ)
  tempo_ate_intubacao_h : StatBlock
  quantidade_intubados : ℕ
  tempo_ventilacao : StatBlock
  quantidade_ventilados : ℕ
  pacientes_ventilados : ℕ
  total_pacientes : ℕ
  prop_vent : ℚ
  cvc_days : ℕ
  patient_days : ℕ
  utilizacao_cvc : ℚ
  pacientes_cvc : ℕ
  pc_cvc : ℚ
  foley_days : ℕ
  utilizacao_foley : ℚ
  pacientes_foley : ℕ
  pc_foley : ℚ
  art_days : ℕ
  utilizacao_art : ℚ
  pacientes_art : ℕ
  pc_art : ℚ
deriving DecidableEq, Repr

/-- Embedding of `build_kpi_cti_gestao` (gestao.py lines 85-526) as a
pure function of the snapshot, the query parameters, the clock `now`
(both `now_utc` of line 110 and the clock reads inside
`_overlap_seconds`), and the system timezone `tz` (never consulted,
since every fetched instant is offset-aware in the model). -/
def build_kpi_cti_gestao (tz : ℚ) (setor : String) (ini fimEx now : ℚ)
    (snap : Snapshot) : KpiDoc :=
  let va := ventAcc tz now setor ini fimEx snap
  let pdr := pdRows setor ini fimEx snap
  let patient_days := pdr.length
  let cvc_days := pdr.countP (·.cvc)
  let foley_days := pdr.countP (·.foley)
  let art_days := pdr.countP (·.art_line)
  let total_pac := (pdAllIds setor ini fimEx snap).length
  let ventIds := (pdIdsWhere (·.ventilado) setor ini fimEx snap).length
  let cvcIds := (pdIdsWhere (·.cvc) setor ini fimEx snap).length
  let foleyIds := (pdIdsWhere (·.foley) setor ini fimEx snap).length
  let artIds := (pdIdsWhere (·.art_line) setor ini fimEx snap).length
  let ranking := abRanking tz now setor ini fimEx snap
  { periodo_inicio := ini
    periodo_fim := fimEx
    id_setor := setor
    pacientes_no_periodo := pacientesNoPeriodo tz now setor ini fimEx snap
    los_periodo_setor := statBlock (losPeriodoD tz now setor ini fimEx snap)
    los_por_alta := statBlock (losAltaList setor ini fimEx snap)
    quantidade_saidas := (saidas setor ini fimEx snap).length
    obitos := obitos setor ini fimEx snap
    mortalidade_taxa :=
      _ratio (obitos setor ini fimEx snap : ℚ) ((saidas setor ini fimEx snap).length : ℚ) 4
    readmissoes := readmissoes setor ini fimEx snap
    altas_utilizadas := altasUtilizadas setor ini fimEx snap
    readmissao_taxa :=
      _ratio (readmissoes setor ini fimEx snap : ℚ) (altasUtilizadas setor ini fimEx snap : ℚ) 4
    reintubacoes := va.reint
    extubacoes := va.total_ext
    reintubacao_taxa := _ratio (va.reint : ℚ) (va.total_ext : ℚ) 4
    destino_alta := destinoAlta setor ini fimEx snap
    ranking := ranking
    dot_por_antibiotico := ranking.map (fun x => (x.antibiotico, x.dot_total_d))
    tempo_ate_intubacao_h := statBlock va.tt_int_h
    quantidade_intubados := va.qtd_intubados
    tempo_ventilacao := statBlock va.vent_tot_d
    quantidade_ventilados := va.qtd_ventilados
    pacientes_ventilados := if pdr = [] then 0 else ventIds
    total_pacientes := if pdr = [] then 0 else total_pac
    prop_vent := if pdr = [] then 0 else _ratio (ventIds : ℚ) (total_pac : ℚ) 4
    cvc_days := if pdr = [] then 0 else cvc_days
    patient_days := if pdr = [] then 0 else patient_days
    utilizacao_cvc :=
      _ratio ((if pdr = [] then 0 else cvc_days : ℕ) : ℚ)
        ((if pdr = [] then 0 else patient_days : ℕ) : ℚ) 4
    pacientes_cvc := if pdr = [] then 0 else cvcIds
    pc_cvc := if pdr = [] then 0 else _ratio (cvcIds : ℚ) (total_pac : ℚ) 4
    foley_days := if pdr = [] then 0 else foley_days
    utilizacao_foley :=
      _ratio ((if pdr = [] then 0 else foley_days : ℕ) : ℚ)
        ((if pdr = [] then 0 else patient_days : ℕ) : ℚ) 4
    pacientes_foley := if pdr = [] then 0 else foleyIds
    pc_foley := if pdr = [] then 0 else _ratio (foleyIds : ℚ) (total_pac : ℚ) 4
    art_days := if pdr = [] then 0 else art_days
    utilizacao_art :=
      _ratio ((if pdr = [] then 0 else art_days : ℕ) : ℚ)
        ((if pdr = [] then 0 else patient_days : ℕ) : ℚ) 4
    pacientes_art := if pdr = [] then 0 else artIds
    pc_art := if pdr = [] then 0 else _ratio (artIds : ℚ) (total_pac : ℚ) 4 }

/-!
## Spec-side definitions for the refinement comparisons

These definitions follow the specification's words (not the source) and
exist only to be compared with the source-derived definitions above.
-/

/-- The trimmed/lower-cased free-text destination, rule (1) of the
normalizer. -/
def normDest (destino_alta : Option String) : String :=
  pyStrip (pyLower (destino_alta.getD ""))

/-- The trimmed/lower-cased outcome consulted by rules (2)-(3) of the
normalizer (`None` and `""` default to `"alta"` before normalizing). -/
def normOutcome (desfecho : Option String) : String :=
  let raw := desfecho.getD ""
  pyStrip (pyLower (if raw = "" then "alta" else raw))

/-- Following the claim's words for the presence cohort: the admissions
(non-empty ids) having at least one `SectorStay` in the target sector
overlapping the window test, counted as a set. -/
def claimedCohortIds (setor : String) (ini fimEx : ℚ) (snap : Snapshot) : List String :=
  (((estadasSetor setor ini fimEx snap).map (·.id_internacao)).filter (· ≠ "")).dedup

/-- The per-admission sum of stay overlaps over an arbitrary list of
stays. -/
def sumOverlap (tz now ini fimEx : ℚ) (iid : String) (l : List Estada) : ℚ :=
  ((l.filter (fun e => e.id_internacao = iid)).map (overlapEstada tz now ini fimEx)).sum

/-- The summed overlap of one admission's qualifying stays in the
sector with the window. -/
def totalOverlap (tz now : ℚ) (setor : String) (ini fimEx : ℚ) (snap : Snapshot)
    (iid : String) : ℚ :=
  (((estadasSetor setor ini fimEx snap).filter (fun e => e.id_internacao = iid)).map
    (overlapEstada tz now ini fimEx)).sum

/-- Following the claim's words for 48h readmission: the candidates of a
discharge are the same patient's later admissions that themselves have a
`SectorStay` in the target sector; the discharge matches when the
earliest such candidate's admission instant lies within 48 hours of the
discharge. -/
def claimedReadmMatch (setor : String) (snap : Snapshot) (s : Internacao) : Bool :=
  match s.alta_ts with
  | Option.none => false
  | some alta =>
    let cands := snap.internacoes.filter
      (fun j => j.id_paciente == s.id_paciente &&
        passouSetor setor snap j.id_internacao &&
        (match j.admissao_ts with
         | some a => decide (alta < a)
         | Option.none => false))
    match (sortQ (cands.filterMap (·.admissao_ts))).head? with
    | some aMin => decide (diferenca_horas alta aMin ≤ 48)
    | Option.none => false

/-- Following the claim's words: matched discharges among the
discharged-alive discharges of the window. -/
def claimedReadmCount (setor : String) (ini fimEx : ℚ) (snap : Snapshot) : ℕ :=
  (altasVivas setor ini fimEx snap).countP (claimedReadmMatch setor snap)

/-!
## Concrete test records

Small snapshots used to separate the source behaviour from claimed
behaviour at explicit inputs.
-/

/-- A patient discharged alive from sector `S` at t=1000 whose
chronologically next admission (`I2`, t=2000) went to sector `T` only,
followed by an admission into `S` (`I3`, t=3000) well within 48h. -/
def snapReadm : Snapshot :=
  { internacoes :=
      [ ⟨"I1", "P", some (-100), some 1000, some "alta", Option.none⟩,
        ⟨"I2", "P", some 2000, Option.none, Option.none, Option.none⟩,
        ⟨"I3", "P", some 3000, Option.none, Option.none, Option.none⟩ ],
    estadas :=
      [ ⟨"I1", "S", -100, some 1000⟩,
        ⟨"I2", "T", 2000, Option.none⟩,
        ⟨"I3", "S", 3000, Option.none⟩ ],
    ventilacoes := [], pacienteDias := [], abUsos := [], abPeriodos := [] }

/-- One admission whose only stay in sector `S` qualifies for the
cohort filter but ends exactly at the window start (zero overlap). -/
def snapZeroOverlap : Snapshot :=
  { internacoes := [],
    estadas := [ ⟨"A", "S", -10, some 0⟩ ],
    ventilacoes := [], pacienteDias := [], abUsos := [], abPeriodos := [] }

/-- One admission with an open-ended stay in sector `S` starting at the
window start: its overlap with the window is clipped at the invocation
clock. -/
def snapOpenStay : Snapshot :=
  { internacoes := [],
    estadas := [ ⟨"A", "S", 0, Option.none⟩ ],
    ventilacoes := [], pacienteDias := [], abUsos := [], abPeriodos := [] }

/-! ## Helper lemmas -/

theorem ite_pos_eq_max (s : ℚ) : (if 0 < s then s else 0) = max 0 s := by
  rcases le_or_lt s 0 with h | h
  · rw [if_neg (not_lt.2 h), max_eq_left h]
  · rw [if_pos h, max_eq_right h.le]

theorem overlap_seconds_aware (tz now a0 b0 b1 : ℚ) (a1 : Option ℚ) :
    overlap_seconds tz now (.aware a0) (optDT a1) (.aware b0) (.aware b1)
      = max 0 (min (a1.getD now) b1 - max a0 b0) := by
  cases a1 with
  | none =>
    show (if 0 < min now b1 - max a0 b0 then min now b1 - max a0 b0 else 0) = _
    rw [ite_pos_eq_max]; rfl
  | some t =>
    show (if 0 < min t b1 - max a0 b0 then min t b1 - max a0 b0 else 0) = _
    rw [ite_pos_eq_max]; rfl

theorem overlap_seconds_nonneg (tz now : ℚ) (aS aE bS bE : PyDT) :
    0 ≤ overlap_seconds tz now aS aE bS bE := by
  unfold overlap_seconds
  rcases h1 : coerce_dt tz aS with _ | a0 <;>
    rcases h2 : coerce_dt tz bS with _ | b0 <;>
      rcases h3 : coerce_dt tz bE with _ | b1 <;>
        simp only [h1, h2, h3]
  all_goals first
  | exact le_refl 0
  | (rw [ite_pos_eq_max]; exact le_max_left 0 _)

/-- C4: for valid offset-aware instants, `_overlap_seconds` returns
`max 0 (min(aEnd-or-now, windowEnd) - max(aStart, windowStart))`, a
value `≥ 0`; when `aEnd` is absent and the clock is at or past the
window end, the open interval is clipped by the window end, not by the
clock. -/
theorem C4_overlap_formula (tz now a0 b0 b1 : ℚ) (a1 : Option ℚ) :
    overlap_seconds tz now (.aware a0) (optDT a1) (.aware b0) (.aware b1)
      = max 0 (min (a1.getD now) b1 - max a0 b0) ∧
    0 ≤ overlap_seconds tz now (.aware a0) (optDT a1) (.aware b0) (.aware b1) ∧
    (a1 = Option.none → b1 ≤ now →
      overlap_seconds tz now (.aware a0) (optDT a1) (.aware b0) (.aware b1)
        = max 0 (b1 - max a0 b0)) := by
  refine ⟨overlap_seconds_aware tz now a0 b0 b1 a1,
    overlap_seconds_nonneg tz now _ _ _ _, ?_⟩
  rintro rfl hb
  rw [overlap_seconds_aware]
  simp only [Option.getD]
  rw [min_eq_right hb]

/-- Witness for C4 at the spec's open-interval example (window one day,
clock 19 days later): the overlap is the full window. -/
theorem C4_overlap_formula_witness :
    (Option.none = (Option.none : Option ℚ)) ∧ ((86400 : ℚ) ≤ 19 * 86400) ∧
    overlap_seconds 0 (19 * 86400) (.aware 0) (optDT Option.none) (.aware 0) (.aware 86400)
      = max 0 (86400 - max 0 0) ∧
    max (0 : ℚ) (86400 - max 0 0) = 86400 :=
  ⟨rfl, by norm_num,
   (C4_overlap_formula 0 (19 * 86400) 0 0 86400 Option.none).2.2 rfl (by norm_num),
   by norm_num⟩

/-- C10 counterexample: with a degenerate interval (`aEnd < aStart`) the
overlap is 0, which exceeds the interval's own (negative) length, so
the bound `overlap ≤ aEnd - aStart` fails as stated. -/
theorem C10_counterexample :
    overlap_seconds 0 0 (.aware 100) (optDT (some 0)) (.aware 0) (.aware 50) = 0 ∧
    ¬ overlap_seconds 0 0 (.aware 100) (optDT (some 0)) (.aware 0) (.aware 50) ≤ (0 : ℚ) - 100 := by
  have h := overlap_seconds_aware 0 0 100 0 50 (some 0)
  rw [h]
  norm_num

/-- C10 amended: the overlap never exceeds the window's length when the
window is ordered, and never exceeds the interval's length when the
interval is present and ordered. -/
theorem C10_overlap_bounds (tz now a0 b0 b1 : ℚ) (a1 : Option ℚ) :
    (b0 ≤ b1 →
      overlap_seconds tz now (.aware a0) (optDT a1) (.aware b0) (.aware b1) ≤ b1 - b0) ∧
    (∀ t, a1 = some t → a0 ≤ t →
      overlap_seconds tz now (.aware a0) (optDT a1) (.aware b0) (.aware b1) ≤ t - a0) := by
  simp only [overlap_seconds_aware]
  constructor
  · intro h
    apply max_le (by linarith)
    have h1 : min (a1.getD now) b1 ≤ b1 := min_le_right _ _
    have h2 : b0 ≤ max a0 b0 := le_max_right _ _
    linarith
  · rintro t rfl h
    apply max_le (by linarith)
    have h1 : min ((some t).getD now) b1 ≤ t := by
      simp only [Option.getD]
      exact min_le_left _ _
    have h2 : a0 ≤ max a0 b0 := le_max_left _ _
    linarith

/-- Witness for C10 at a concrete ordered interval and window. -/
theorem C10_overlap_bounds_witness :
    ((0 : ℚ) ≤ 5 ∧
      overlap_seconds 0 0 (.aware 0) (optDT (some 10)) (.aware 0) (.aware 5) ≤ 5 - 0) ∧
    (some (10 : ℚ) = some 10 ∧ (0 : ℚ) ≤ 10 ∧
      overlap_seconds 0 0 (.aware 0) (optDT (some 10)) (.aware 0) (.aware 5) ≤ 10 - 0) :=
  ⟨⟨by norm_num, (C10_overlap_bounds 0 0 0 0 5 (some 10)).1 (by norm_num)⟩,
   ⟨rfl, by norm_num, (C10_overlap_bounds 0 0 0 0 5 (some 10)).2 10 rfl (by norm_num)⟩⟩

/-- C2 counterexample: a naive instant is _not_ excluded — `_coerce_dt`
interprets it in the system-local timezone (offset 3600 s here), and an
overlap whose interval start is naive is 100, not 0. -/
theorem C2_counterexample :
    coerce_dt 3600 (.naive 7200) = some 3600 ∧
    overlap_seconds 0 0 (.naive 0) (.aware 100) (.aware 0) (.aware 100) = 100 ∧
    (100 : ℚ) ≠ 0 := by
  refine ⟨?_, ?_, by norm_num⟩
  · show some (7200 - 3600 : ℚ) = some 3600
    norm_num
  · show (if 0 < min (100 : ℚ) 100 - max (0 - 0) 0 then min (100 : ℚ) 100 - max (0 - 0) 0 else 0)
      = 100
    norm_num

/-- C2 amended: a value lacking an explicit offset is interpreted in the
system-local timezone (wall time minus offset), behaving exactly like
the corresponding aware instant; only `None` and unparsable values are
excluded, giving overlap 0. -/
theorem C2_naive_local (tz now t : ℚ) (aE bS bE : PyDT) :
    coerce_dt tz (.naive t) = some (t - tz) ∧
    coerce_dt tz .none = Option.none ∧
    coerce_dt tz .invalid = Option.none ∧
    overlap_seconds tz now .none aE bS bE = 0 ∧
    overlap_seconds tz now .invalid aE bS bE = 0 ∧
    overlap_seconds tz now (.naive t) aE bS bE
      = overlap_seconds tz now (.aware (t - tz)) aE bS bE := by
  refine ⟨rfl, rfl, rfl, ?_, ?_, rfl⟩ <;> rfl

/-- C3 counterexample: with no free-text destination and outcome
`"fuga"`, the normalizer returns `"fuga"`, not the default ward label,
so rule (3) as claimed ("every other outcome maps to the default") is
false. -/
theorem C3_counterexample :
    _normaliza_destino Option.none (some "fuga") = "fuga" ∧
    _normaliza_destino Option.none (some "fuga") ≠ "enfermaria" := by
  constructor <;> decide

/-- C3 amended: rules (1) and (2) as claimed; rule (3) returns the
normalized outcome itself when it is non-empty, and the default
`"enfermaria"` only when it normalizes to the empty string.  The
function is total by construction. -/
theorem C3_normalize_rules (da de : Option String) :
    (normDest da ≠ "" → _normaliza_destino da de = normDest da) ∧
    (normDest da = "" → normOutcome de = "alta" →
      _normaliza_destino da de = "enfermaria") ∧
    (normDest da = "" → normOutcome de = "obito" →
      _normaliza_destino da de = "obito") ∧
    (normDest da = "" → normOutcome de = "transferencia" →
      _normaliza_destino da de = "outro_hospital") ∧
    (normDest da = "" → normOutcome de ≠ "alta" → normOutcome de ≠ "obito" →
      normOutcome de ≠ "transferencia" → normOutcome de ≠ "" →
      _normaliza_destino da de = normOutcome de) ∧
    (normDest da = "" → normOutcome de = "" →
      _normaliza_destino da de = "enfermaria") := by
  unfold _normaliza_destino normDest normOutcome
  refine ⟨fun h1 => ?_, fun h1 h2 => ?_, fun h1 h2 => ?_, fun h1 h2 => ?_,
    fun h1 h2 h3 h4 h5 => ?_, fun h1 h2 => ?_⟩ <;>
      simp_all

/-- Witness for C3 at a concrete deceased outcome. -/
theorem C3_normalize_rules_witness :
    normDest Option.none = "" ∧ normOutcome (some "obito") = "obito" ∧
    _normaliza_destino Option.none (some "obito") = "obito" :=
  ⟨by decide, by decide,
   (C3_normalize_rules Option.none (some "obito")).2.2.1 (by decide) (by decide)⟩

theorem floor_eq_ceil_iff_fract (k : ℚ) : ⌊k⌋ = ⌈k⌉ ↔ Int.fract k = 0 := by
  constructor
  · intro h
    have h1 : (⌊k⌋ : ℚ) ≤ k := Int.floor_le k
    have h2 : k ≤ (⌈k⌉ : ℚ) := Int.le_ceil k
    rw [← h] at h2
    have h3 : k - ⌊k⌋ = Int.fract k := Int.self_sub_floor k
    linarith
  · intro h
    have h3 : k - ⌊k⌋ = Int.fract k := Int.self_sub_floor k
    have h4 : k = ((⌊k⌋ : ℤ) : ℚ) := by rw [h] at h3; linarith
    rw [h4, Int.ceil_intCast, Int.floor_intCast]

/-- C7: `_stats` is `(0,0,0)` on the empty sample, `(mean, median, p90)`
rounded to 2 decimals otherwise; `p90` follows the linear-interpolated
rank rule (`s[k]` at an integral rank `k = 0.9(n-1)`, interpolation by
the fractional part otherwise); the spec's worked example evaluates to
`(3, 3, 4.6)`. -/
theorem C7_stats (arr : List ℚ) :
    _stats [] = (0, 0, 0) ∧
    _stats [4, 1, 2, 3, 5] = (3, 3, 23 / 5) ∧
    (arr ≠ [] →
      _stats arr = (roundQ 2 (arr.sum / (arr.length : ℚ)), roundQ 2 (pymedian arr),
        roundQ 2 (p90 arr))) ∧
    (∀ k : ℚ, k = 9 / 10 * ((arr.length - 1 : ℕ) : ℚ) → arr ≠ [] →
      (Int.fract k = 0 → p90 arr = (sortQ arr).getD (⌊k⌋).toNat 0) ∧
      (Int.fract k ≠ 0 → p90 arr = (sortQ arr).getD (⌊k⌋).toNat 0
        + (k - ⌊k⌋) * ((sortQ arr).getD (⌈k⌉).toNat 0 - (sortQ arr).getD (⌊k⌋).toNat 0))) := by
  refine ⟨by norm_num [_stats], ?_, fun h => by rw [_stats, if_neg h], ?_⟩
  · have hne : ([4, 1, 2, 3, 5] : List ℚ) ≠ [] := by simp
    have hc : ⌈(18 : ℚ) / 5⌉ = 4 := by rw [Int.ceil_eq_iff] <;> norm_num
    have hf : ⌊(18 : ℚ) / 5⌋ = 3 := by rw [Int.floor_eq_iff] <;> norm_num
    have h460 : ⌊(460 : ℚ) + 1 / 2⌋ = 460 := by rw [Int.floor_eq_iff] <;> norm_num
    have h300 : ⌊(300 : ℚ) + 1 / 2⌋ = 300 := by rw [Int.floor_eq_iff] <;> norm_num
    norm_num [_stats, hne, p90, pymedian, sortQ, List.insertionSort, List.orderedInsert,
      hc, hf, roundQ, round_eq, Int.toNat, h460, h300]
  · rintro k rfl hne
    constructor
    · intro hfr
      have heq : ⌊(9 : ℚ) / 10 * ((arr.length - 1 : ℕ) : ℚ)⌋
          = ⌈(9 : ℚ) / 10 * ((arr.length - 1 : ℕ) : ℚ)⌉ :=
        (floor_eq_ceil_iff_fract _).2 hfr
      rw [p90, if_neg hne]
      simp only [heq, if_pos]
    · intro hfr
      have heq : ¬ ⌊(9 : ℚ) / 10 * ((arr.length - 1 : ℕ) : ℚ)⌋
          = ⌈(9 : ℚ) / 10 * ((arr.length - 1 : ℕ) : ℚ)⌉ :=
        fun h => hfr ((floor_eq_ceil_iff_fract _).1 h)
      rw [p90, if_neg hne]
      simp only [if_neg heq]

/-- Witness for C7: the decomposition applied at the non-empty worked
sample. -/
theorem C7_stats_witness :
    (([4, 1, 2, 3, 5] : List ℚ) ≠ []) ∧
    _stats [4, 1, 2, 3, 5]
      = (roundQ 2 (([4, 1, 2, 3, 5] : List ℚ).sum / (([4, 1, 2, 3, 5] : List ℚ).length : ℚ)),
         roundQ 2 (pymedian [4, 1, 2, 3, 5]), roundQ 2 (p90 [4, 1, 2, 3, 5])) :=
  ⟨by simp, (C7_stats [4, 1, 2, 3, 5]).2.2.1 (by simp)⟩

theorem find_gt_sorted {l : List ℚ} (hs : List.Sorted (· ≤ ·) l) {e p : ℚ}
    (h : l.find? (fun i => decide (e < i)) = some p) :
    p ∈ l ∧ e < p ∧ ∀ j ∈ l, e < j → p ≤ j := by
  induction l with
  | nil => simp at h
  | cons a t ih =>
    rcases List.sorted_cons.1 hs with ⟨ha, hst⟩
    by_cases hea : e < a
    · rw [List.find?_cons_of_pos _ (by simpa using hea)] at h
      obtain rfl : a = p := by simpa using h
      refine ⟨List.mem_cons_self _ _, hea, ?_⟩
      intro j hj _
      rcases List.mem_cons.1 hj with rfl | hj
      · exact le_refl _
      · exact ha j hj
    · rw [List.find?_cons_of_neg _ (by simpa using hea)] at h
      obtain ⟨hp, hep, hmin⟩ := ih hst h
      refine ⟨List.mem_cons_of_mem _ hp, hep, ?_⟩
      intro j hj hlt
      rcases List.mem_cons.1 hj with rfl | hj
      · exact absurd hlt hea
      · exact hmin j hj hlt

theorem find_gt_none {l : List ℚ} {e : ℚ}
    (h : l.find? (fun i => decide (e < i)) = Option.none) :
    ∀ j ∈ l, ¬ e < j := by
  intro j hj hlt
  have h2 := List.find?_eq_none.1 h j hj
  simp at h2
  exact absurd hlt (not_lt.2 h2)


/-- C6: in the unit-level 48h-reintubation scan, each extubation is an
independent trigger matching exactly when the admission's earliest
intubation strictly after it exists within 48 hours; a record
contributes its number of matches to the numerator and exactly its
number of extubations to the denominator; in the spec's example (I at
T+5h, E1 at T, E2 at T+10h) only E1 matches. -/
theorem C6_reintubation (v : Ventilacao) (e : ℚ) :
    (reintMatch (ventIntu v) e = true ↔
      ∃ i ∈ v.intubacoes_ts, e < i ∧ diferenca_horas e i ≤ 48 ∧
        ∀ j ∈ v.intubacoes_ts, e < j → i ≤ j) ∧
    reintOf (ventIntu v) (ventExt v) = (ventExt v).countP (reintMatch (ventIntu v)) ∧
    reintOf (ventIntu v) (ventExt v) ≤ v.extubacoes_ts.length ∧
    (∀ (acc : VentAcc) (tz now ini fimEx : ℚ) (coorte : List String) (snap : Snapshot),
      (ventStep tz now ini fimEx coorte snap acc v).total_ext
        = acc.total_ext + v.extubacoes_ts.length ∧
      (ventStep tz now ini fimEx coorte snap acc v).reint
        = acc.reint + reintOf (ventIntu v) (ventExt v)) ∧
    reintOf [18000] [0, 36000] = 1 := by
  have hperm := List.perm_insertionSort (· ≤ ·) v.intubacoes_ts
  have hsort : List.Sorted (· ≤ ·) (ventIntu v) :=
    List.sorted_insertionSort (· ≤ ·) v.intubacoes_ts
  have hpermE := List.perm_insertionSort (· ≤ ·) v.extubacoes_ts
  refine ⟨?_, rfl, ?_, ?_, ?_⟩
  · constructor
    · intro hm
      rw [reintMatch] at hm
      rcases hfind : (ventIntu v).find? (fun i => decide (e < i)) with _ | p
      · rw [hfind] at hm; simp at hm
      · rw [hfind] at hm
        simp only [decide_eq_true_eq] at hm
        obtain ⟨hp, hep, hmin⟩ := find_gt_sorted hsort hfind
        refine ⟨p, hperm.mem_iff.1 hp, hep, hm, ?_⟩
        intro j hj hlt
        exact hmin j (hperm.mem_iff.2 hj) hlt
    · rintro ⟨i, hi, hei, hgap, hmin⟩
      rw [reintMatch]
      rcases hfind : (ventIntu v).find? (fun i => decide (e < i)) with _ | p
      · exact absurd hei (find_gt_none hfind i (hperm.mem_iff.2 hi))
      · obtain ⟨hp, hep, hminp⟩ := find_gt_sorted hsort hfind
        have h1 : i ≤ p := hmin p (hperm.mem_iff.1 hp) hep
        have h2 : p ≤ i := hminp i (hperm.mem_iff.2 hi) hei
        have : p = i := le_antisymm h2 h1
        subst this
        simpa using hgap
  · calc reintOf (ventIntu v) (ventExt v) ≤ (ventExt v).length :=
          List.countP_le_length _
      _ = v.extubacoes_ts.length := hpermE.length_eq
  · intro acc tz now ini fimEx coorte snap
    rw [ventStep]
    constructor <;>
      (simp only [] ;
       rcases h1 : (itMapLookup coorte snap v.id_internacao).bind (·.admissao_ts)
          with _ | adm <;>
         split <;> split <;>
           simp [ventExt, sortQ, hpermE.length_eq])
  · have h1 : reintMatch [18000] (0 : ℚ) = true := by
      rw [reintMatch, List.find?_cons_of_pos _ (by norm_num)]
      simp only [decide_eq_true_eq]
      norm_num [diferenca_horas]
    have h2 : reintMatch [18000] (36000 : ℚ) = false := by
      rw [reintMatch, List.find?_cons_of_neg _ (by norm_num)]
      rfl
    rw [reintOf]
    simp [List.countP_cons, h1, h2]

/-- C8: a query touching a sector with no stays and no device-day rows
(hence zero qualifying admissions, ventilation records, antibiotic
periods and device-day rows) produces the all-zero document: `(0,0,0)`
statistic blocks, `0` ratios, empty ranking and empty destination
distribution — and, the function being total, no error. -/
theorem C8_empty_defaults (tz : ℚ) (setor : String) (ini fimEx now : ℚ) (snap : Snapshot)
    (hE : ∀ e ∈ snap.estadas, e.id_setor ≠ setor)
    (hP : ∀ d ∈ snap.pacienteDias, d.id_setor ≠ setor) :
    build_kpi_cti_gestao tz setor ini fimEx now snap =
      { periodo_inicio := ini, periodo_fim := fimEx, id_setor := setor,
        pacientes_no_periodo := 0,
        los_periodo_setor := ⟨0, 0, 0⟩, los_por_alta := ⟨0, 0, 0⟩,
        quantidade_saidas := 0, obitos := 0, mortalidade_taxa := 0,
        readmissoes := 0, altas_utilizadas := 0, readmissao_taxa := 0,
        reintubacoes := 0, extubacoes := 0, reintubacao_taxa := 0,
        destino_alta := [], ranking := [], dot_por_antibiotico := [],
        tempo_ate_intubacao_h := ⟨0, 0, 0⟩, quantidade_intubados := 0,
        tempo_ventilacao := ⟨0, 0, 0⟩, quantidade_ventilados := 0,
        pacientes_ventilados := 0, total_pacientes := 0, prop_vent := 0,
        cvc_days := 0, patient_days := 0, utilizacao_cvc := 0,
        pacientes_cvc := 0, pc_cvc := 0,
        foley_days := 0, utilizacao_foley := 0,
        pacientes_foley := 0, pc_foley := 0,
        art_days := 0, utilizacao_art := 0,
        pacientes_art := 0, pc_art := 0 } := by
  have hes : estadasSetor setor ini fimEx snap = [] := by
    rw [estadasSetor]
    exact List.filter_eq_nil_iff.2 (fun e he => by simp [estadaMatch, hE e he])
  have hpass : ∀ iid, passouSetor setor snap iid = false := by
    intro iid
    rw [passouSetor]
    exact List.any_eq_false.2 (fun e he => by simp [hE e he])
  have hsaidas : saidas setor ini fimEx snap = [] := by
    rw [saidas]
    exact List.filter_eq_nil_iff.2 (fun it _ => by simp [hpass])
  have haltas : altasVivas setor ini fimEx snap = [] := by
    rw [altasVivas]
    exact List.filter_eq_nil_iff.2 (fun it _ => by simp [hpass])
  have hcoorte : coorteIds setor ini fimEx snap = [] := by
    rw [coorteIds, hes]; rfl
  have hsecs : secsNoSetor tz now setor ini fimEx snap = [] := by
    rw [secsNoSetor, hes]; rfl
  have hpd : pdRows setor ini fimEx snap = [] := by
    rw [pdRows]
    exact List.filter_eq_nil_iff.2 (fun d hd => by simp [hP d hd])
  have hvent : ventAcc tz now setor ini fimEx snap = ⟨[], 0, 0, 0, 0, []⟩ := by
    rw [ventAcc, hcoorte]; rfl
  have hab : abRanking tz now setor ini fimEx snap = [] := by
    rw [abRanking, hcoorte]; rfl
  have hstat : statBlock [] = ⟨0, 0, 0⟩ := by rw [statBlock, _stats]; rfl
  have hratio : _ratio ((0 : ℕ) : ℚ) ((0 : ℕ) : ℚ) 4 = 0 := by
    simp [_ratio, roundQ]
  rw [build_kpi_cti_gestao]
  simp only [hvent, hpd, hab, hsecs, hsaidas, haltas, hcoorte,
    pacientesNoPeriodo, losPeriodoD, losAltaList, obitos, readmissoes, altasUtilizadas,
    destinoAlta, destinoCounts, totalDest, pdAllIds, pdIdsWhere,
    hsecs, List.map_nil, List.foldl_nil, List.filterMap_nil, List.countP_nil,
    List.length_nil, List.filter_nil, List.dedup_nil, hstat]
  norm_num [_ratio, roundQ, hstat]

theorem lookup_cons_eq {α : Type} (k k1 : String) (v : α) (t : List (String × α)) :
    ((k1, v) :: t).lookup k = if k = k1 then some v else t.lookup k := by
  rw [List.lookup]
  by_cases h : k = k1
  · simp [h]
  · have hb : (k == k1) = false := by simpa using h
    simp [hb, h]

theorem lookup_map_upd {α : Type} (f : α → α) (k : String) (m : List (String × α)) (v : α)
    (h : m.lookup k = some v) :
    (m.map (fun p => if p.1 = k then (p.1, f p.2) else p)).lookup k = some (f v) := by
  induction m with
  | nil => simp at h
  | cons p t ih =>
    obtain ⟨k1, a⟩ := p
    rw [lookup_cons_eq] at h
    by_cases hk : k = k1
    · rw [if_pos hk] at h
      obtain rfl : a = v := by simpa using h
      simp only [List.map_cons]
      rw [if_pos hk.symm, lookup_cons_eq, if_pos hk]
    · rw [if_neg hk] at h
      simp only [List.map_cons]
      by_cases hk1 : k1 = k
      · exact absurd hk1.symm hk
      · rw [if_neg hk1, lookup_cons_eq, if_neg hk]
        exact ih h

theorem lookup_map_upd_ne {α : Type} (f : α → α) (k k' : String) (m : List (String × α))
    (h : k' ≠ k) :
    (m.map (fun p => if p.1 = k then (p.1, f p.2) else p)).lookup k' = m.lookup k' := by
  induction m with
  | nil => rfl
  | cons p t ih =>
    obtain ⟨k1, a⟩ := p
    simp only [List.map_cons]
    by_cases hk1 : k1 = k
    · rw [if_pos hk1, lookup_cons_eq, lookup_cons_eq, ih]
      subst hk1
      rw [if_neg h, if_neg h]
    · rw [if_neg hk1, lookup_cons_eq, lookup_cons_eq, ih]

theorem lookup_append_left {α : Type} (k : String) (m t : List (String × α)) (v : α)
    (h : m.lookup k = some v) : (m ++ t).lookup k = some v := by
  induction m with
  | nil => simp at h
  | cons p s ih =>
    obtain ⟨k1, a⟩ := p
    rw [lookup_cons_eq] at h
    rw [List.cons_append, lookup_cons_eq]
    by_cases hk : k = k1
    · rwa [if_pos hk] at h ⊢
    · rw [if_neg hk] at h ⊢
      exact ih h

theorem lookup_append_right {α : Type} (k : String) (m t : List (String × α))
    (h : m.lookup k = Option.none) : (m ++ t).lookup k = t.lookup k := by
  induction m with
  | nil => rfl
  | cons p s ih =>
    obtain ⟨k1, a⟩ := p
    rw [lookup_cons_eq] at h
    rw [List.cons_append, lookup_cons_eq]
    by_cases hk : k = k1
    · rw [if_pos hk] at h; exact absurd h (by simp)
    · rw [if_neg hk] at h ⊢
      exact ih h

theorem dictUpd_lookup_self {α : Type} (m : List (String × α)) (k : String) (d : α)
    (f : α → α) : (dictUpd m k d f).lookup k = some (f ((m.lookup k).getD d)) := by
  rw [dictUpd]
  by_cases h : (m.lookup k).isSome
  · rw [if_pos h]
    obtain ⟨v, hv⟩ := Option.isSome_iff_exists.1 h
    rw [hv]
    exact lookup_map_upd f k m v hv
  · rw [if_neg h]
    have hv : m.lookup k = Option.none := Option.not_isSome_iff_eq_none.1 h
    rw [hv, lookup_append_right k m _ hv, lookup_cons_eq, if_pos rfl]
    rfl

theorem dictUpd_lookup_ne {α : Type} (m : List (String × α)) (k k' : String) (d : α)
    (f : α → α) (h : k' ≠ k) : (dictUpd m k d f).lookup k' = m.lookup k' := by
  rw [dictUpd]
  by_cases hs : (m.lookup k).isSome
  · rw [if_pos hs]
    exact lookup_map_upd_ne f k k' m h
  · rw [if_neg hs]
    rcases hv : m.lookup k' with _ | v
    · rw [lookup_append_right k' m [(k, f d)] hv, lookup_cons_eq, if_neg h]
      rfl
    · rw [lookup_append_left k' m _ v hv]

theorem dictUpd_keys {α : Type} (m : List (String × α)) (k : String) (d : α) (f : α → α) :
    (dictUpd m k d f).map Prod.fst =
      if (m.lookup k).isSome then m.map Prod.fst else m.map Prod.fst ++ [k] := by
  rw [dictUpd]
  by_cases h : (m.lookup k).isSome
  · rw [if_pos h, if_pos h, List.map_map]
    apply List.map_congr_left
    intro p _
    by_cases hp : p.1 = k <;> simp [hp]
  · rw [if_neg h, if_neg h]
    simp

theorem lookup_isSome_iff_mem {α : Type} (m : List (String × α)) (k : String) :
    (m.lookup k).isSome ↔ k ∈ m.map Prod.fst := by
  induction m with
  | nil => simp
  | cons p t ih =>
    obtain ⟨k1, a⟩ := p
    rw [lookup_cons_eq]
    by_cases h : k = k1 <;> simp [h, ih]

theorem mem_keys_dictUpd {α : Type} (m : List (String × α)) (k k' : String) (d : α)
    (f : α → α) :
    (k' ∈ (dictUpd m k d f).map Prod.fst) ↔ k' ∈ m.map Prod.fst ∨ k' = k := by
  rw [dictUpd_keys]
  by_cases h : (m.lookup k).isSome
  · rw [if_pos h]
    have hk : k ∈ m.map Prod.fst := (lookup_isSome_iff_mem m k).1 h
    constructor
    · exact Or.inl
    · rintro (hm | rfl)
      · exact hm
      · exact hk
  · rw [if_neg h]
    simp

theorem nodup_keys_dictUpd {α : Type} (m : List (String × α)) (k : String) (d : α)
    (f : α → α) (h : (m.map Prod.fst).Nodup) : ((dictUpd m k d f).map Prod.fst).Nodup := by
  rw [dictUpd_keys]
  by_cases hs : (m.lookup k).isSome
  · rwa [if_pos hs]
  · rw [if_neg hs]
    have hk : k ∉ m.map Prod.fst := fun hm => hs ((lookup_isSome_iff_mem m k).2 hm)
    simp [List.nodup_append, h, hk]

theorem overlapEstada_nonneg (tz now ini fimEx : ℚ) (e : Estada) :
    0 ≤ overlapEstada tz now ini fimEx e :=
  overlap_seconds_nonneg tz now _ _ _ _

theorem sumOverlap_nonneg (tz now ini fimEx : ℚ) (iid : String) (l : List Estada) :
    0 ≤ sumOverlap tz now ini fimEx iid l := by
  apply List.sum_nonneg
  intro x hx
  obtain ⟨e, _, rfl⟩ := List.mem_map.1 hx
  exact overlapEstada_nonneg tz now ini fimEx e

theorem sumOverlap_cons (tz now ini fimEx : ℚ) (iid : String) (e : Estada) (t : List Estada) :
    sumOverlap tz now ini fimEx iid (e :: t) =
      (if e.id_internacao = iid then overlapEstada tz now ini fimEx e else 0)
        + sumOverlap tz now ini fimEx iid t := by
  by_cases h : e.id_internacao = iid <;>
    simp [sumOverlap, List.filter_cons, h]

theorem totalOverlap_eq_sum (tz now : ℚ) (setor : String) (ini fimEx : ℚ) (snap : Snapshot)
    (iid : String) :
    totalOverlap tz now setor ini fimEx snap iid
      = sumOverlap tz now ini fimEx iid (estadasSetor setor ini fimEx snap) := rfl

theorem secs_foldl_lookup (tz now ini fimEx : ℚ) (iid : String) (hiid : iid ≠ "") :
    ∀ (l : List Estada) (m : List (String × ℚ)),
      (l.foldl (secsStep tz now ini fimEx) m).lookup iid =
        (match m.lookup iid with
         | some v => some (v + sumOverlap tz now ini fimEx iid l)
         | Option.none =>
           if 0 < sumOverlap tz now ini fimEx iid l
           then some (sumOverlap tz now ini fimEx iid l) else Option.none) := by
  intro l
  induction l with
  | nil =>
    intro m
    rcases hm : m.lookup iid with _ | v
    · simp [sumOverlap, hm]
    · simp [sumOverlap, hm]
  | cons e t ih =>
    intro m
    rw [List.foldl_cons]
    by_cases he : e.id_internacao = ""
    · have hne : ¬ e.id_internacao = iid := by rw [he]; exact fun h => hiid h.symm
      rw [show secsStep tz now ini fimEx m e = m from by rw [secsStep, if_pos he]]
      rw [ih m, sumOverlap_cons, if_neg hne, zero_add]
    · rw [show secsStep tz now ini fimEx m e
          = (if 0 < overlapEstada tz now ini fimEx e
             then dictUpd m e.id_internacao 0 (· + overlapEstada tz now ini fimEx e) else m)
        from by rw [secsStep, if_neg he]]
      by_cases heq : e.id_internacao = iid
      · rw [sumOverlap_cons, if_pos heq]
        by_cases hpos : 0 < overlapEstada tz now ini fimEx e
        · rw [if_pos hpos, heq, ih (dictUpd m iid 0 (· + overlapEstada tz now ini fimEx e)),
            dictUpd_lookup_self]
          rcases hm : m.lookup iid with _ | v
          · simp only [hm, Option.getD]
            have hpos2 : 0 < overlapEstada tz now ini fimEx e
                + sumOverlap tz now ini fimEx iid t :=
              add_pos_of_pos_of_nonneg hpos (sumOverlap_nonneg tz now ini fimEx iid t)
            rw [if_pos hpos2, zero_add]
          · simp only [hm, Option.getD]
            rw [add_assoc]
        · rw [if_neg hpos]
          have hz : overlapEstada tz now ini fimEx e = 0 :=
            le_antisymm (not_lt.1 hpos) (overlapEstada_nonneg tz now ini fimEx e)
          rw [ih m, hz, zero_add]
      · have hne' : iid ≠ e.id_internacao := fun h => heq h.symm
        rw [sumOverlap_cons, if_neg heq, zero_add]
        by_cases hpos : 0 < overlapEstada tz now ini fimEx e
        · rw [if_pos hpos,
            ih (dictUpd m e.id_internacao 0 (· + overlapEstada tz now ini fimEx e)),
            dictUpd_lookup_ne _ _ _ _ _ hne']
        · rw [if_neg hpos, ih m]

theorem secs_foldl_mem_keys (tz now ini fimEx : ℚ) (k : String) :
    ∀ (l : List Estada) (m : List (String × ℚ)),
      (k ∈ (l.foldl (secsStep tz now ini fimEx) m).map Prod.fst ↔
        k ∈ m.map Prod.fst ∨
          (k ≠ "" ∧ ∃ e ∈ l, e.id_internacao = k ∧ 0 < overlapEstada tz now ini fimEx e)) := by
  intro l
  induction l with
  | nil => intro m; simp
  | cons e t ih =>
    intro m
    rw [List.foldl_cons]
    by_cases he : e.id_internacao = ""
    · rw [show secsStep tz now ini fimEx m e = m from by rw [secsStep, if_pos he]]
      rw [ih m]
      constructor
      · rintro (hm | ⟨hk, e', he', hp⟩)
        · exact Or.inl hm
        · exact Or.inr ⟨hk, e', List.mem_cons_of_mem _ he', hp⟩
      · rintro (hm | ⟨hk, e', he', hiid, hp⟩)
        · exact Or.inl hm
        · rcases List.mem_cons.1 he' with rfl | he'
          · exact absurd (he ▸ hiid) (fun h => hk h.symm)
          · exact Or.inr ⟨hk, e', he', hiid, hp⟩
    · rw [show secsStep tz now ini fimEx m e
          = (if 0 < overlapEstada tz now ini fimEx e
             then dictUpd m e.id_internacao 0 (· + overlapEstada tz now ini fimEx e) else m)
        from by rw [secsStep, if_neg he]]
      by_cases hpos : 0 < overlapEstada tz now ini fimEx e
      · rw [if_pos hpos, ih (dictUpd m e.id_internacao 0 (· + overlapEstada tz now ini fimEx e))]
        rw [mem_keys_dictUpd]
        constructor
        · rintro ((hm | rfl) | ⟨hk, e', he', hiid, hp⟩)
          · exact Or.inl hm
          · exact Or.inr ⟨he, e, List.mem_cons_self _ _, rfl, hpos⟩
          · exact Or.inr ⟨hk, e', List.mem_cons_of_mem _ he', hiid, hp⟩
        · rintro (hm | ⟨hk, e', he', hiid, hp⟩)
          · exact Or.inl (Or.inl hm)
          · rcases List.mem_cons.1 he' with rfl | he'
            · exact Or.inl (Or.inr hiid.symm)
            · exact Or.inr ⟨hk, e', he', hiid, hp⟩
      · rw [if_neg hpos, ih m]
        constructor
        · rintro (hm | ⟨hk, e', he', hiid, hp⟩)
          · exact Or.inl hm
          · exact Or.inr ⟨hk, e', List.mem_cons_of_mem _ he', hiid, hp⟩
        · rintro (hm | ⟨hk, e', he', hiid, hp⟩)
          · exact Or.inl hm
          · rcases List.mem_cons.1 he' with rfl | he'
            · exact absurd hp hpos
            · exact Or.inr ⟨hk, e', he', hiid, hp⟩

theorem secs_foldl_nodup_keys (tz now ini fimEx : ℚ) :
    ∀ (l : List Estada) (m : List (String × ℚ)),
      (m.map Prod.fst).Nodup → ((l.foldl (secsStep tz now ini fimEx) m).map Prod.fst).Nodup := by
  intro l
  induction l with
  | nil => intro m hm; exact hm
  | cons e t ih =>
    intro m hm
    rw [List.foldl_cons]
    rw [secsStep]
    by_cases he : e.id_internacao = ""
    · rw [if_pos he]; exact ih m hm
    · rw [if_neg he]
      by_cases hpos : 0 < overlapEstada tz now ini fimEx e
      · simp only [if_pos hpos]
        exact ih _ (nodup_keys_dictUpd m e.id_internacao 0 _ hm)
      · simp only [if_neg hpos]
        exact ih m hm

theorem pos_sumOverlap_iff (tz now ini fimEx : ℚ) (iid : String) (l : List Estada) :
    0 < sumOverlap tz now ini fimEx iid l ↔
      ∃ e ∈ l, e.id_internacao = iid ∧ 0 < overlapEstada tz now ini fimEx e := by
  constructor
  · intro hpos
    by_contra hno
    push_neg at hno
    have hz : sumOverlap tz now ini fimEx iid l = 0 := by
      apply List.sum_eq_zero
      intro x hx
      obtain ⟨e, hef, rfl⟩ := List.mem_map.1 hx
      obtain ⟨hel, hid⟩ := List.mem_filter.1 hef
      have hid' : e.id_internacao = iid := by simpa using hid
      exact le_antisymm (hno e hel hid') (overlapEstada_nonneg tz now ini fimEx e)
    rw [hz] at hpos
    exact absurd hpos (lt_irrefl 0)
  · rintro ⟨e, hel, hid, hpos⟩
    have hmem : overlapEstada tz now ini fimEx e
        ∈ (l.filter (fun e => e.id_internacao = iid)).map (overlapEstada tz now ini fimEx) :=
      List.mem_map_of_mem _ (List.mem_filter.2 ⟨hel, by simpa using hid⟩)
    have hle := List.single_le_sum
      (fun x hx => by
        obtain ⟨e', _, rfl⟩ := List.mem_map.1 hx
        exact overlapEstada_nonneg tz now ini fimEx e') _ hmem
    exact lt_of_lt_of_le hpos hle

/-- C5 amended: per qualifying admission the recorded seconds are
exactly the sum of `overlapSeconds` over its qualifying stays (recorded
only when that sum is positive); the reported cohort count equals the
number of distinct qualifying admissions with *positive* summed
overlap — an admission whose only qualifying stay has zero overlap is
excluded from the count, although it is part of the id-set used for the
downstream queries, which coincides with the claimed qualifying set. -/
theorem C5_presence (tz now : ℚ) (setor : String) (ini fimEx : ℚ) (snap : Snapshot)
    (iid : String) (hiid : iid ≠ "") :
    ((secsNoSetor tz now setor ini fimEx snap).lookup iid
      = if 0 < totalOverlap tz now setor ini fimEx snap iid
        then some (totalOverlap tz now setor ini fimEx snap iid) else Option.none) ∧
    pacientesNoPeriodo tz now setor ini fimEx snap
      = ((claimedCohortIds setor ini fimEx snap).filter
          (fun j => decide (0 < totalOverlap tz now setor ini fimEx snap j))).length ∧
    (iid ∈ coorteIds setor ini fimEx snap ↔ iid ∈ claimedCohortIds setor ini fimEx snap) := by
  refine ⟨?_, ?_, ?_⟩
  · rw [secsNoSetor, secs_foldl_lookup tz now ini fimEx iid hiid, totalOverlap_eq_sum]
    rfl
  · rw [pacientesNoPeriodo]
    have hlen : (secsNoSetor tz now setor ini fimEx snap).length
        = ((secsNoSetor tz now setor ini fimEx snap).map Prod.fst).length :=
      (List.length_map _ _).symm
    rw [hlen]
    set L1 := (secsNoSetor tz now setor ini fimEx snap).map Prod.fst with hL1
    set L2 := (claimedCohortIds setor ini fimEx snap).filter
      (fun j => decide (0 < totalOverlap tz now setor ini fimEx snap j)) with hL2
    have hn1 : L1.Nodup := by
      rw [hL1, secsNoSetor]
      exact secs_foldl_nodup_keys tz now ini fimEx _ [] (by simp)
    have hn2 : L2.Nodup := List.Nodup.filter _ (List.nodup_dedup _)
    have hmem : ∀ k, k ∈ L1 ↔ k ∈ L2 := by
      intro k
      rw [hL1, hL2, secsNoSetor, secs_foldl_mem_keys]
      rw [List.mem_filter, claimedCohortIds, List.mem_dedup, List.mem_filter]
      constructor
      · rintro (hk | ⟨hk, e, hel, hid, hpos⟩)
        · simp at hk
        · have hmap : k ∈ (estadasSetor setor ini fimEx snap).map (·.id_internacao) := by
            rw [← hid]; exact List.mem_map_of_mem _ hel
          refine ⟨⟨hmap, by simpa using hk⟩, ?_⟩
          rw [decide_eq_true_eq, totalOverlap_eq_sum, pos_sumOverlap_iff]
          exact ⟨e, hel, hid, hpos⟩
      · rintro ⟨⟨hmap, hkne⟩, hpos⟩
        rw [decide_eq_true_eq, totalOverlap_eq_sum, pos_sumOverlap_iff] at hpos
        obtain ⟨e, hel, hid, hp⟩ := hpos
        exact Or.inr ⟨by simpa using hkne, e, hel, hid, hp⟩
    have hfin : L1.toFinset = L2.toFinset := by
      ext k
      rw [List.mem_toFinset, List.mem_toFinset]
      exact hmem k
    calc L1.length = L1.toFinset.card := (List.toFinset_card_of_nodup hn1).symm
      _ = L2.toFinset.card := by rw [hfin]
      _ = L2.length := List.toFinset_card_of_nodup hn2
  · rw [coorteIds, claimedCohortIds, List.mem_dedup]

/-- Witness for C5 at the zero-overlap snapshot. -/
theorem C5_presence_witness :
    (("A" : String) ≠ "") ∧
    ((secsNoSetor 0 0 "S" 0 86400 snapZeroOverlap).lookup "A"
      = if 0 < totalOverlap 0 0 "S" 0 86400 snapZeroOverlap "A"
        then some (totalOverlap 0 0 "S" 0 86400 snapZeroOverlap "A") else Option.none) :=
  ⟨by decide, (C5_presence 0 0 "S" 0 86400 snapZeroOverlap "A" (by decide)).1⟩

/-- C5 counterexample: in `snapZeroOverlap` the single stay qualifies
for the cohort filter (it ends exactly at the window start), so the
claimed cohort count is 1, but the reported `pacientes_no_periodo` is
0 because only positive overlaps create entries. -/
theorem C5_counterexample :
    (claimedCohortIds "S" 0 86400 snapZeroOverlap).length = 1 ∧
    pacientesNoPeriodo 0 0 "S" 0 86400 snapZeroOverlap = 0 := by
  have hes : estadasSetor "S" 0 86400 snapZeroOverlap = [⟨"A", "S", -10, some 0⟩] := by
    rw [estadasSetor, snapZeroOverlap]
    norm_num [estadaMatch, List.filter]
  have hov : overlapEstada 0 0 0 86400 ⟨"A", "S", -10, some 0⟩ = 0 := by
    rw [overlapEstada]
    have h := overlap_seconds_aware 0 0 (-10) 0 86400 (some 0)
    simp only [] at h ⊢
    rw [h]
    norm_num
  constructor
  · rw [claimedCohortIds, hes]
    decide
  · rw [pacientesNoPeriodo, secsNoSetor, hes, List.foldl_cons, List.foldl_nil, secsStep]
    rw [if_neg (by decide : ¬ (Estada.mk "A" "S" (-10) (some 0)).id_internacao = "")]
    simp only [hov]
    norm_num

theorem foldl_proxMin_isSome (t : List Internacao) (b : Internacao) :
    (t.foldl proxMin (some b)).isSome = true := by
  induction t generalizing b with
  | nil => rfl
  | cons j s ih =>
    rw [List.foldl_cons, proxMin]
    by_cases h : j.admissao_ts.getD 0 < b.admissao_ts.getD 0
    · rw [if_pos h]; exact ih j
    · rw [if_neg h]; exact ih b

theorem foldl_proxMin_min (t : List Internacao) :
    ∀ (b c : Internacao), t.foldl proxMin (some b) = some c →
      (c = b ∨ c ∈ t) ∧ c.admissao_ts.getD 0 ≤ b.admissao_ts.getD 0 ∧
        ∀ j ∈ t, c.admissao_ts.getD 0 ≤ j.admissao_ts.getD 0 := by
  induction t with
  | nil =>
    intro b c h
    obtain rfl : b = c := by simpa using h
    exact ⟨Or.inl rfl, le_refl _, by simp⟩
  | cons j s ih =>
    intro b c h
    rw [List.foldl_cons, proxMin] at h
    by_cases hj : j.admissao_ts.getD 0 < b.admissao_ts.getD 0
    · rw [if_pos hj] at h
      obtain ⟨hmem, hle, hmin⟩ := ih j c h
      refine ⟨?_, ?_, ?_⟩
      · rcases hmem with rfl | hm
        · exact Or.inr (List.mem_cons_self _ _)
        · exact Or.inr (List.mem_cons_of_mem _ hm)
      · exact le_trans hle (le_of_lt hj)
      · intro j' hj'
        rcases List.mem_cons.1 hj' with rfl | hm
        · exact hle
        · exact hmin j' hm
    · rw [if_neg hj] at h
      obtain ⟨hmem, hle, hmin⟩ := ih b c h
      refine ⟨?_, hle, ?_⟩
      · rcases hmem with rfl | hm
        · exact Or.inl rfl
        · exact Or.inr (List.mem_cons_of_mem _ hm)
      · intro j' hj'
        rcases List.mem_cons.1 hj' with rfl | hm
        · exact le_trans hle (not_lt.1 hj)
        · exact hmin j' hm

theorem proxInt_eq_none_iff (snap : Snapshot) (idpac : String) (alta : ℚ) :
    proxInt snap idpac alta = Option.none ↔ proxCands snap idpac alta = [] := by
  rw [proxInt]
  rcases hc : proxCands snap idpac alta with _ | ⟨j, t⟩
  · simp
  · rw [List.foldl_cons]
    show (t.foldl proxMin (proxMin Option.none j) = Option.none) ↔ _
    rw [show proxMin Option.none j = some j from rfl]
    constructor
    · intro h
      have := foldl_proxMin_isSome t j
      rw [h] at this
      exact absurd this (by simp)
    · intro h
      exact absurd h (by simp)

theorem proxInt_spec (snap : Snapshot) (idpac : String) (alta : ℚ) (nx : Internacao)
    (h : proxInt snap idpac alta = some nx) :
    nx ∈ proxCands snap idpac alta ∧
      ∀ j ∈ proxCands snap idpac alta, nx.admissao_ts.getD 0 ≤ j.admissao_ts.getD 0 := by
  rw [proxInt] at h
  rcases hc : proxCands snap idpac alta with _ | ⟨j, t⟩
  · rw [hc] at h; simp at h
  · rw [hc, List.foldl_cons, show proxMin Option.none j = some j from rfl] at h
    obtain ⟨hmem, hle, hmin⟩ := foldl_proxMin_min t j nx h
    refine ⟨?_, ?_⟩
    · rcases hmem with rfl | hm
      · exact List.mem_cons_self _ _
      · exact List.mem_cons_of_mem _ hm
    · intro j' hj'
      rcases List.mem_cons.1 hj' with rfl | hm
      · exact hle
      · exact hmin j' hm

theorem mem_proxCands (snap : Snapshot) (idpac : String) (alta : ℚ) (j : Internacao) :
    j ∈ proxCands snap idpac alta ↔
      j ∈ snap.internacoes ∧ j.id_paciente = idpac ∧
        ∃ a, j.admissao_ts = some a ∧ alta < a := by
  rw [proxCands, List.mem_filter]
  constructor
  · rintro ⟨hj, hb⟩
    rw [Bool.and_eq_true] at hb
    obtain ⟨hp, hm⟩ := hb
    refine ⟨hj, by simpa using hp, ?_⟩
    rcases ha : j.admissao_ts with _ | a
    · rw [ha] at hm; simp at hm
    · rw [ha] at hm
      exact ⟨a, rfl, by simpa using hm⟩
  · rintro ⟨hj, hp, a, ha, hlt⟩
    refine ⟨hj, ?_⟩
    rw [Bool.and_eq_true]
    exact ⟨by simpa using hp, by rw [ha]; simpa using hlt⟩

/-- C1 amended: the only candidate examined for a discharge is the
patient's single chronologically next admission (minimal admission
instant strictly after the discharge); the discharge is counted iff
that admission has a `SectorStay` in the target sector and lies within
48 hours — a later same-sector admission is never reached.  The
denominator is the number of discharged-alive (`desfecho = "alta"`)
discharges of the window having a stay in the sector.  (Admission
instants are assumed pairwise distinct per patient so that "the next
admission" is well defined.) -/
theorem C1_readmission (setor : String) (ini fimEx : ℚ) (snap : Snapshot)
    (huniq : ∀ j ∈ snap.internacoes, ∀ k ∈ snap.internacoes,
      j.id_paciente = k.id_paciente → j.admissao_ts = k.admissao_ts →
        j.admissao_ts.isSome = true → j = k) :
    readmissoes setor ini fimEx snap
      = (altasVivas setor ini fimEx snap).countP (readmMatch setor snap) ∧
    altasUtilizadas setor ini fimEx snap = (altasVivas setor ini fimEx snap).length ∧
    (∀ (s : Internacao) (alta : ℚ), s.alta_ts = some alta →
      (readmMatch setor snap s = true ↔
        ∃ nx ∈ snap.internacoes, nx.id_paciente = s.id_paciente ∧
          ∃ a, nx.admissao_ts = some a ∧ alta < a ∧
            (∀ j ∈ snap.internacoes, j.id_paciente = s.id_paciente →
              ∀ b, j.admissao_ts = some b → alta < b → a ≤ b) ∧
            passouSetor setor snap nx.id_internacao = true ∧
            diferenca_horas alta a ≤ 48)) := by
  refine ⟨rfl, rfl, ?_⟩
  intro s alta halta
  rcases hpi : proxInt snap s.id_paciente alta with _ | nx
  · simp only [readmMatch, readmHoras, halta, hpi]
    rw [proxInt_eq_none_iff] at hpi
    constructor
    · intro h; exact absurd h (by simp)
    · rintro ⟨nx, hnxin, hnxpac, a, hna, hlt, -, -, -⟩
      have hc : nx ∈ proxCands snap s.id_paciente alta :=
        (mem_proxCands snap s.id_paciente alta nx).2 ⟨hnxin, hnxpac, a, hna, hlt⟩
      rw [hpi] at hc
      exact absurd hc (by simp)
  · obtain ⟨hmemc, hmin⟩ := proxInt_spec snap s.id_paciente alta nx hpi
    obtain ⟨hnxin, hnxpac, a, hna, hlta⟩ :=
      (mem_proxCands snap s.id_paciente alta nx).1 hmemc
    by_cases hps : passouSetor setor snap nx.id_internacao
    · simp only [readmMatch, readmHoras, halta, hpi, if_pos hps]
      constructor
      · intro h
        refine ⟨nx, hnxin, hnxpac, a, hna, hlta, ?_, hps, ?_⟩
        · intro j hj hjpac b hjb hbgt
          have hjc : j ∈ proxCands snap s.id_paciente alta :=
            (mem_proxCands snap s.id_paciente alta j).2 ⟨hj, hjpac, b, hjb, hbgt⟩
          have hle := hmin j hjc
          rw [hna, hjb] at hle
          simpa using hle
        · rw [hna] at h
          simpa using h
      · rintro ⟨nx', hnx'in, hnx'pac, a', hna', hlt', hmin', hps', hgap'⟩
        have hnx'c : nx' ∈ proxCands snap s.id_paciente alta :=
          (mem_proxCands snap s.id_paciente alta nx').2 ⟨hnx'in, hnx'pac, a', hna', hlt'⟩
        have h1 : a ≤ a' := by
          have := hmin nx' hnx'c
          rw [hna, hna'] at this
          simpa using this
        have h2 : a' ≤ a := hmin' nx hnxin hnxpac a hna hlta
        have haa : a' = a := le_antisymm h2 h1
        have hnn : nx' = nx :=
          huniq nx' hnx'in nx hnxin (hnx'pac.trans hnxpac.symm)
            (by rw [hna', hna, haa]) (by rw [hna']; rfl)
        rw [hna]
        subst hnn
        rw [hna] at hna'
        obtain rfl : a = a' := by simpa using hna'
        simpa using hgap'
    · simp only [readmMatch, readmHoras, halta, hpi, if_neg hps]
      constructor
      · intro h; exact absurd h (by simp)
      · rintro ⟨nx', hnx'in, hnx'pac, a', hna', hlt', hmin', hps', hgap'⟩
        have hnx'c : nx' ∈ proxCands snap s.id_paciente alta :=
          (mem_proxCands snap s.id_paciente alta nx').2 ⟨hnx'in, hnx'pac, a', hna', hlt'⟩
        have h1 : a ≤ a' := by
          have := hmin nx' hnx'c
          rw [hna, hna'] at this
          simpa using this
        have h2 : a' ≤ a := hmin' nx hnxin hnxpac a hna hlta
        have haa : a' = a := le_antisymm h2 h1
        have hnn : nx' = nx :=
          huniq nx' hnx'in nx hnxin (hnx'pac.trans hnxpac.symm)
            (by rw [hna', hna, haa]) (by rw [hna']; rfl)
        rw [hnn] at hps'
        exact absurd hps' hps

/-- C1 counterexample: in `snapReadm` the discharge from sector `S` at
t=1000 is followed by an admission to sector `T` at t=2000 and an
admission into `S` at t=3000 (well within 48h).  The claimed rule
counts it (earliest same-sector candidate within 48h), the code does
not: it inspects only the chronologically next admission, which went to
the other sector. -/
theorem C1_counterexample :
    claimedReadmCount "S" 0 86400 snapReadm = 1 ∧
    readmissoes "S" 0 86400 snapReadm = 0 := by
  have halt : altasVivas "S" 0 86400 snapReadm
      = [⟨"I1", "P", some (-100), some 1000, some "alta", Option.none⟩] := by decide
  have hmatch : claimedReadmMatch "S" snapReadm
      ⟨"I1", "P", some (-100), some 1000, some "alta", Option.none⟩ = true := by
    show decide (diferenca_horas 1000 3000 ≤ 48) = true
    rw [decide_eq_true_eq]
    norm_num [diferenca_horas]
  have hm : readmMatch "S" snapReadm
      ⟨"I1", "P", some (-100), some 1000, some "alta", Option.none⟩ = false := by decide
  constructor
  · rw [claimedReadmCount, halt]
    simp [List.countP_cons, hmatch]
  · rw [readmissoes, halt]
    simp [List.countP_cons, hm]

/-- Witness for C1 at the counterexample snapshot (whose admission
instants are pairwise distinct per patient). -/
theorem C1_readmission_witness :
    (∀ j ∈ snapReadm.internacoes, ∀ k ∈ snapReadm.internacoes,
      j.id_paciente = k.id_paciente → j.admissao_ts = k.admissao_ts →
        j.admissao_ts.isSome = true → j = k) ∧
    readmissoes "S" 0 86400 snapReadm
      = (altasVivas "S" 0 86400 snapReadm).countP (readmMatch "S" snapReadm) :=
  ⟨by decide, (C1_readmission "S" 0 86400 snapReadm (by decide)).1⟩

theorem foldl_fun_ext {α β : Type} (f g : α → β → α) (h : ∀ a b, f a b = g a b) :
    ∀ (l : List β) (init : α), l.foldl f init = l.foldl g init := by
  intro l
  induction l with
  | nil => intro init; rfl
  | cons b t ih => intro init; rw [List.foldl_cons, List.foldl_cons, h, ih]

theorem overlap_now_inv (tz n1 n2 ini fimEx : ℚ) (aS aE : PyDT)
    (h1 : fimEx ≤ n1) (h2 : fimEx ≤ n2) :
    overlap_seconds tz n1 aS aE (.aware ini) (.aware fimEx)
      = overlap_seconds tz n2 aS aE (.aware ini) (.aware fimEx) := by
  unfold overlap_seconds
  rcases ha : coerce_dt tz aS with _ | a0
  · rfl
  · rcases haE : (if aE.truthy then coerce_dt tz aE else Option.none) with _ | t
    · simp only [coerce_dt, Option.getD]
      rw [min_eq_right h1, min_eq_right h2]
    · rfl

theorem overlapEstada_now_inv (tz n1 n2 ini fimEx : ℚ) (e : Estada)
    (h1 : fimEx ≤ n1) (h2 : fimEx ≤ n2) :
    overlapEstada tz n1 ini fimEx e = overlapEstada tz n2 ini fimEx e :=
  overlap_now_inv tz n1 n2 ini fimEx _ _ h1 h2

theorem secsStep_now_inv (tz n1 n2 ini fimEx : ℚ) (h1 : fimEx ≤ n1) (h2 : fimEx ≤ n2)
    (m : List (String × ℚ)) (e : Estada) :
    secsStep tz n1 ini fimEx m e = secsStep tz n2 ini fimEx m e := by
  rw [secsStep, secsStep, overlapEstada_now_inv tz n1 n2 ini fimEx e h1 h2]

theorem secsNoSetor_now_inv (tz n1 n2 : ℚ) (setor : String) (ini fimEx : ℚ) (snap : Snapshot)
    (h1 : fimEx ≤ n1) (h2 : fimEx ≤ n2) :
    secsNoSetor tz n1 setor ini fimEx snap = secsNoSetor tz n2 setor ini fimEx snap := by
  rw [secsNoSetor, secsNoSetor]
  exact foldl_fun_ext _ _ (secsStep_now_inv tz n1 n2 ini fimEx h1 h2) _ _

theorem vent_period_now_inv (tz n1 n2 ini fimEx : ℚ) (p : VentPeriodo)
    (h1 : fimEx ≤ n1) (h2 : fimEx ≤ n2) :
    overlap_seconds tz n1 (optDT p.inicio) (.aware (p.fim.getD n1)) (.aware ini) (.aware fimEx)
      = overlap_seconds tz n2 (optDT p.inicio) (.aware (p.fim.getD n2))
          (.aware ini) (.aware fimEx) := by
  rcases hf : p.fim with _ | f
  · rcases hi : p.inicio with _ | a0
    · rfl
    · simp only [Option.getD]
      show (if 0 < min n1 fimEx - max a0 ini then min n1 fimEx - max a0 ini else 0)
        = (if 0 < min n2 fimEx - max a0 ini then min n2 fimEx - max a0 ini else 0)
      rw [min_eq_right h1, min_eq_right h2]
  · simp only [Option.getD]
    exact overlap_now_inv tz n1 n2 ini fimEx _ _ h1 h2

theorem ventTotalSecs_now_inv (tz n1 n2 ini fimEx : ℚ) (v : Ventilacao)
    (h1 : fimEx ≤ n1) (h2 : fimEx ≤ n2) :
    ventTotalSecs tz n1 ini fimEx v = ventTotalSecs tz n2 ini fimEx v := by
  rw [ventTotalSecs, ventTotalSecs]
  apply foldl_fun_ext
  intro acc p
  rw [vent_period_now_inv tz n1 n2 ini fimEx p h1 h2]

theorem ventStep_now_inv (tz n1 n2 ini fimEx : ℚ) (coorte : List String) (snap : Snapshot)
    (h1 : fimEx ≤ n1) (h2 : fimEx ≤ n2) (acc : VentAcc) (v : Ventilacao) :
    ventStep tz n1 ini fimEx coorte snap acc v = ventStep tz n2 ini fimEx coorte snap acc v := by
  rw [ventStep, ventStep, ventTotalSecs_now_inv tz n1 n2 ini fimEx v h1 h2]

theorem ventAcc_now_inv (tz n1 n2 : ℚ) (setor : String) (ini fimEx : ℚ) (snap : Snapshot)
    (h1 : fimEx ≤ n1) (h2 : fimEx ≤ n2) :
    ventAcc tz n1 setor ini fimEx snap = ventAcc tz n2 setor ini fimEx snap := by
  rw [ventAcc, ventAcc]
  split
  · rfl
  · exact foldl_fun_ext _ _ (ventStep_now_inv tz n1 n2 ini fimEx _ snap h1 h2) _ _

theorem abStep_now_inv (tz n1 n2 ini fimEx : ℚ) (usos : List AbUso)
    (h1 : fimEx ≤ n1) (h2 : fimEx ≤ n2) (acc : AbAcc) (p : AbPeriodo) :
    abStep tz n1 ini fimEx usos acc p = abStep tz n2 ini fimEx usos acc p := by
  rw [abStep, abStep, overlap_now_inv tz n1 n2 ini fimEx (optDT p.inicio) (optDT p.fim) h1 h2]

theorem abRanking_now_inv (tz n1 n2 : ℚ) (setor : String) (ini fimEx : ℚ) (snap : Snapshot)
    (h1 : fimEx ≤ n1) (h2 : fimEx ≤ n2) :
    abRanking tz n1 setor ini fimEx snap = abRanking tz n2 setor ini fimEx snap := by
  simp only [abRanking]
  by_cases hc : coorteIds setor ini fimEx snap = []
  · rw [if_pos hc, if_pos hc]
  · rw [if_neg hc, if_neg hc]
    by_cases hu : abUsosCoorte (coorteIds setor ini fimEx snap) snap = []
    · rw [if_pos hu, if_pos hu]
    · rw [if_neg hu, if_neg hu,
        foldl_fun_ext _ _ (abStep_now_inv tz n1 n2 ini fimEx _ h1 h2)]

/-- C9 amended: the unit-level document is a pure function of the
snapshot *and the invocation clock*; whenever both clocks are at or
past the window end (the usual case of reporting over a past window)
the two results are identical, so recomputation from an unchanged
snapshot is deterministic in that regime. -/
theorem C9_idempotent_past_window (tz : ℚ) (setor : String) (ini fimEx n1 n2 : ℚ)
    (snap : Snapshot) (h1 : fimEx ≤ n1) (h2 : fimEx ≤ n2) :
    build_kpi_cti_gestao tz setor ini fimEx n1 snap
      = build_kpi_cti_gestao tz setor ini fimEx n2 snap := by
  rw [build_kpi_cti_gestao, build_kpi_cti_gestao,
    ventAcc_now_inv tz n1 n2 setor ini fimEx snap h1 h2,
    abRanking_now_inv tz n1 n2 setor ini fimEx snap h1 h2,
    pacientesNoPeriodo, pacientesNoPeriodo, losPeriodoD, losPeriodoD,
    secsNoSetor_now_inv tz n1 n2 setor ini fimEx snap h1 h2]

/-- Witness for C9: two past-window clocks on the open-stay snapshot. -/
theorem C9_idempotent_past_window_witness :
    ((86400 : ℚ) ≤ 90000) ∧ ((86400 : ℚ) ≤ 100000) ∧
    build_kpi_cti_gestao 0 "S" 0 86400 90000 snapOpenStay
      = build_kpi_cti_gestao 0 "S" 0 86400 100000 snapOpenStay :=
  ⟨by norm_num, by norm_num,
   C9_idempotent_past_window 0 "S" 0 86400 90000 100000 snapOpenStay
     (by norm_num) (by norm_num)⟩

/-- C9 counterexample: on a snapshot with an open-ended stay overlapping
the window, two invocations whose clocks fall inside the window (t=1000
and t=2000) produce different documents — the mean in-sector length of
stay differs — so the output is not a function of the snapshot alone. -/
theorem C9_counterexample :
    build_kpi_cti_gestao 0 "S" 0 86400 1000 snapOpenStay
      ≠ build_kpi_cti_gestao 0 "S" 0 86400 2000 snapOpenStay := by
  have hes : estadasSetor "S" 0 86400 snapOpenStay = [⟨"A", "S", 0, Option.none⟩] := by decide
  have hov : ∀ now : ℚ, 0 ≤ now → now ≤ 86400 →
      overlapEstada 0 now 0 86400 ⟨"A", "S", 0, Option.none⟩ = now := by
    intro now h0 h1
    show overlap_seconds 0 now (.aware 0) (optDT Option.none) (.aware 0) (.aware 86400) = now
    rw [overlap_seconds_aware]
    simp only [Option.getD]
    rw [min_eq_left h1]
    simp [max_eq_right h0]
  have hsecs : ∀ now : ℚ, 0 < now → now ≤ 86400 →
      secsNoSetor 0 now "S" 0 86400 snapOpenStay = [("A", now)] := by
    intro now h0 h1
    rw [secsNoSetor, hes, List.foldl_cons, List.foldl_nil, secsStep]
    rw [if_neg (by decide : ¬ (Estada.mk "A" "S" 0 Option.none).id_internacao = "")]
    simp only [hov now (le_of_lt h0) h1]
    rw [if_pos h0, dictUpd]
    norm_num
  have hms : ∀ now : ℚ, 0 < now → now ≤ 86400 →
      (build_kpi_cti_gestao 0 "S" 0 86400 now snapOpenStay).los_periodo_setor.media
        = roundQ 2 (now / 86400) := by
    intro now h0 h1
    show (statBlock (losPeriodoD 0 now "S" 0 86400 snapOpenStay)).media = _
    rw [losPeriodoD, hsecs now h0 h1]
    show (_stats [now / 86400]).1 = _
    rw [_stats, if_neg (by simp)]
    norm_num
  have r1 : roundQ 2 ((1000 : ℚ) / 86400) = 1 / 100 := by
    rw [roundQ, round_eq]
    rw [show (1000 : ℚ) / 86400 * 10 ^ 2 + 1 / 2 = 179 / 108 by norm_num]
    rw [show ⌊(179 : ℚ) / 108⌋ = 1 by rw [Int.floor_eq_iff] <;> norm_num]
    norm_num
  have r2 : roundQ 2 ((2000 : ℚ) / 86400) = 1 / 50 := by
    rw [roundQ, round_eq]
    rw [show (2000 : ℚ) / 86400 * 10 ^ 2 + 1 / 2 = 76 / 27 by norm_num]
    rw [show ⌊(76 : ℚ) / 27⌋ = 2 by rw [Int.floor_eq_iff] <;> norm_num]
    norm_num
  intro heq
  have hproj := congrArg (fun d : KpiDoc => d.los_periodo_setor.media) heq
  simp only [] at hproj
  rw [hms 1000 (by norm_num) (by norm_num), hms 2000 (by norm_num) (by norm_num),
    r1, r2] at hproj
  norm_num at hproj

/-- Witness for C8: a snapshot whose only stay and no device-day rows
touch the queried sector. -/
theorem C8_empty_defaults_witness :
    (∀ e ∈ (Snapshot.mk [] [⟨"A", "X", 0, Option.none⟩] [] [] [] []).estadas,
      e.id_setor ≠ "S") ∧
    build_kpi_cti_gestao 0 "S" 0 86400 0 ⟨[], [⟨"A", "X", 0, Option.none⟩], [], [], [], []⟩
      = { periodo_inicio := 0, periodo_fim := 86400, id_setor := "S",
          pacientes_no_periodo := 0,
          los_periodo_setor := ⟨0, 0, 0⟩, los_por_alta := ⟨0, 0, 0⟩,
          quantidade_saidas := 0, obitos := 0, mortalidade_taxa := 0,
          readmissoes := 0, altas_utilizadas := 0, readmissao_taxa := 0,
          reintubacoes := 0, extubacoes := 0, reintubacao_taxa := 0,
          destino_alta := [], ranking := [], dot_por_antibiotico := [],
          tempo_ate_intubacao_h := ⟨0, 0, 0⟩, quantidade_intubados := 0,
          tempo_ventilacao := ⟨0, 0, 0⟩, quantidade_ventilados := 0,
          pacientes_ventilados := 0, total_pacientes := 0, prop_vent := 0,
          cvc_days := 0, patient_days := 0, utilizacao_cvc := 0,
          pacientes_cvc := 0, pc_cvc := 0,
          foley_days := 0, utilizacao_foley := 0,
          pacientes_foley := 0, pc_foley := 0,
          art_days := 0, utilizacao_art := 0,
          pacientes_art := 0, pc_art := 0 } :=
  ⟨by decide,
   C8_empty_defaults 0 "S" 0 86400 0 ⟨[], [⟨"A", "X", 0, Option.none⟩], [], [], [], []⟩
     (by decide) (by decide)⟩

/-- Witness for C6: the spec's worked example via the theorem. -/
theorem C6_reintubation_witness : reintOf [18000] [0, 36000] = 1 :=
  (C6_reintubation ⟨"", [], [], []⟩ 0).2.2.2.2

/-- Witness for C2 at a concrete naive instant. -/
theorem C2_naive_local_witness :
    coerce_dt 3600 (.naive 7200) = some (7200 - 3600) :=
  (C2_naive_local 3600 0 7200 .none .none .none).1
